import Mathlib

/-!
Verification development for the tera_lang interpreter (Rust).

The embedding follows the final, most feature-complete iteration of each
subsystem, per the repository layout:
  * `src/quantity.rs`   — units and uncertain complex quantities (embedded here
    with `f64` modelled as `ℝ` and the 7 `i8` unit exponents as `ℤ`);
  * `src/ast/mod.rs`    — the AST builder (iterative precedence reduction);
  * `src/ast/eval.rs`   — the tree-walking evaluator (Rust panics are modelled
    as `Except.error`);
  * the final lexer is not present under `src/` (only the superseded early
    iteration `src/lexer.rs` is), so it is modelled from the spec where the
    two differ.
-/

/-- SI unit: one signed exponent per SI base dimension (struct `Unit` in
`src/quantity.rs`; named `SIUnit` here because `Unit` is taken in Lean). -/
structure SIUnit where
  mole : Int
  metre : Int
  second : Int
  kilogram : Int
  kelvin : Int
  ampere : Int
  candela : Int
deriving DecidableEq, Repr

/-- `Unit::unitless()`. -/
def SIUnit.unitless : SIUnit := ⟨0, 0, 0, 0, 0, 0, 0⟩

/-- `Unit::is_unitless`. -/
def SIUnit.is_unitless (u : SIUnit) : Prop := u = SIUnit.unitless

instance (u : SIUnit) : Decidable u.is_unitless := by
  unfold SIUnit.is_unitless; infer_instance

/-- `impl ops::Mul<Unit> for Unit`: componentwise exponent addition. -/
def SIUnit.mul (a b : SIUnit) : SIUnit :=
  ⟨a.mole + b.mole, a.metre + b.metre, a.second + b.second,
   a.kilogram + b.kilogram, a.kelvin + b.kelvin, a.ampere + b.ampere,
   a.candela + b.candela⟩

/-- `impl ops::Div<Unit> for Unit`: componentwise exponent subtraction. -/
def SIUnit.div (a b : SIUnit) : SIUnit :=
  ⟨a.mole - b.mole, a.metre - b.metre, a.second - b.second,
   a.kilogram - b.kilogram, a.kelvin - b.kelvin, a.ampere - b.ampere,
   a.candela - b.candela⟩

/-- Error value: models every `panic!` of the interpreter.  The spec's
taxonomy maps `unitMismatch` to `UnitError`, `lexErr` to `LexError`,
`parseErr` to `ParseError` and the remaining constructors to `EvalError`.
`unimplemented` models `todo!()`; `unmodelled` flags repository behaviour
outside the scope of this development (string interpolation, unit-symbol
decorators), reachable by no claim. -/
inductive Err where
  | unitMismatch (op : String)
  | notReal (op : String)
  | typeMismatch (op : String)
  | arity (name : String) (n : Nat)
  | unknownOperator (s : String)
  | unknownFunction (s : String)
  | undefinedVariable (s : String)
  | notUnitless (fn : String)
  | unimplemented (s : String)
  | unmodelled (s : String)
  | indexNotInteger (s : String)
  | outOfBounds (s : String)
  | assertFailed
  | userError (s : String)
  | parseErr (s : String)
  | lexErr (s : String)
  | outOfFuel
deriving DecidableEq, Repr

/-- helper `squared` of `src/quantity.rs`. -/
def squared (x : ℝ) : ℝ := x * x

/-- `Quantity` of `src/quantity.rs`: a complex value with independent
variances on the real and imaginary parts, tagged with a unit.  `f64` is
modelled as `ℝ`. -/
structure Quantity where
  re : ℝ
  im : ℝ
  vre : ℝ
  vim : ℝ
  unit : SIUnit

noncomputable instance : DecidableEq Quantity := fun _ _ => Classical.propDecidable _

/-- `impl PartialEq<f64> for Quantity` (used by the evaluator as `n == 0.0`). -/
def Quantity.eq_f64 (q : Quantity) (x : ℝ) : Prop :=
  q.re = x ∧ q.vre = 0 ∧ q.im = 0 ∧ q.vim = 0 ∧ q.unit.is_unitless

noncomputable instance (q : Quantity) (x : ℝ) : Decidable (q.eq_f64 x) := by
  unfold Quantity.eq_f64; infer_instance

/-- `impl Into<Quantity> for f64` (`0.0.into()`, `1.0.into()`). -/
def Quantity.of_f64 (x : ℝ) : Quantity := ⟨x, 0, 0, 0, SIUnit.unitless⟩

/-- `Quantity::is_real`. -/
def Quantity.is_real (q : Quantity) : Prop := q.im = 0 ∧ q.vim = 0

noncomputable instance (q : Quantity) : Decidable q.is_real := by
  unfold Quantity.is_real; infer_instance

/-- `impl ops::Add<Quantity> for Quantity`: values add, variances add. -/
def Quantity.add (a b : Quantity) : Quantity :=
  ⟨a.re + b.re, a.im + b.im, a.vre + b.vre, a.vim + b.vim, a.unit⟩

/-- `impl ops::Sub<Quantity> for Quantity`: values subtract, variances add. -/
def Quantity.sub (a b : Quantity) : Quantity :=
  ⟨a.re - b.re, a.im - b.im, a.vre + b.vre, a.vim + b.vim, a.unit⟩

/-- `impl ops::Mul<Quantity> for Quantity`: complex product with first-order
variance propagation; units compose by exponent addition. -/
def Quantity.mul (a b : Quantity) : Quantity :=
  ⟨a.re * b.re - a.im * b.im,
   a.re * b.im + a.im * b.re,
   b.re * b.re * a.vre + b.im * b.im * a.vim + a.re * a.re * b.vre + a.im * a.im * b.vim,
   b.im * b.im * a.vre + b.re * b.re * a.vim + a.im * a.im * b.vre + a.re * a.re * b.vim,
   SIUnit.mul a.unit b.unit⟩

/-- `impl ops::Div<Quantity> for Quantity`: complex quotient with first-order
variance propagation; units compose by exponent subtraction. -/
noncomputable def Quantity.div (q r : Quantity) : Quantity :=
  let a := q.re; let b := q.im
  let c := r.re; let d := r.im
  let va := q.vre; let vb := q.vim
  let vc := r.vre; let vd := r.vim
  let denom := c * c + d * d
  let denom2 := denom * denom
  let denom4 := denom2 * denom2
  let re := a * c + b * d
  let im := b * c - a * d
  ⟨re / denom, im / denom,
   c * c * va / denom2 + d * d * vb / denom2 +
     squared (a * denom - 2 * c * re) * vc / denom4 +
     squared (b * denom - 2 * d * re) * vd / denom4,
   d * d * va / denom2 + c * c * vb / denom2 +
     squared (b * denom - 2 * c * im) * vc / denom4 +
     squared (a * denom - 2 * d * im) * vd / denom4,
   SIUnit.div q.unit r.unit⟩

/-- `impl ops::Neg for Quantity`. -/
def Quantity.neg (q : Quantity) : Quantity := ⟨-q.re, -q.im, q.vre, q.vim, q.unit⟩

/-- `impl ops::Mul<f64> for Quantity`: scaling; variances scale by the square. -/
def Quantity.mul_f64 (q : Quantity) (factor : ℝ) : Quantity :=
  ⟨q.re * factor, q.im * factor, q.vre * factor * factor, q.vim * factor * factor, q.unit⟩

/-- `Quantity::sin`: `sin(a+bi) = cosh(b)sin(a) + i sinh(b)cos(a)` with
variance through the partial derivatives. -/
noncomputable def Quantity.sin (q : Quantity) : Quantity :=
  let sina := Real.sin q.re
  let cosa := Real.cos q.re
  let sinhb := Real.sinh q.im
  let coshb := Real.cosh q.im
  ⟨coshb * sina, sinhb * cosa,
   squared (coshb * cosa) * q.vre + squared (sinhb * sina) * q.vim,
   squared (sinhb * sina) * q.vre + squared (coshb * cosa) * q.vim,
   SIUnit.unitless⟩

/-- `Quantity::cos`: `cos(a+bi) = cosh(b)cos(a) - i sinh(b)sin(a)` with
variance through the partial derivatives. -/
noncomputable def Quantity.cos (q : Quantity) : Quantity :=
  let sina := Real.sin q.re
  let cosa := Real.cos q.re
  let sinhb := Real.sinh q.im
  let coshb := Real.cosh q.im
  ⟨coshb * cosa, -(sinhb * sina),
   squared (coshb * sina) * q.vre + squared (sinhb * cosa) * q.vim,
   squared (sinhb * cosa) * q.vre + squared (coshb * sina) * q.vim,
   SIUnit.unitless⟩

/-- `Quantity::exp` exactly as written in `src/quantity.rs` lines 657-671:
`re = e^a cos b`, `im = e^a sin b`,
`vre = (e^a cos b)^2 vre + (e^a cos b)^2 vim`,
`vim = (e^a sin b)^2 vre + (e^a cos b)^2 vim`. -/
noncomputable def Quantity.exp (q : Quantity) : Quantity :=
  let ex := Real.exp q.re
  let excos := ex * Real.cos q.im
  let exsin := ex * Real.sin q.im
  let excos2 := squared excos
  let exsin2 := squared exsin
  ⟨excos, exsin,
   excos2 * q.vre + excos2 * q.vim,
   exsin2 * q.vre + excos2 * q.vim,
   SIUnit.unitless⟩

/-- `Quantity::max` (assumes real quantities): the operand with the
greater-or-equal real part. -/
noncomputable def Quantity.max (a b : Quantity) : Quantity :=
  if a.re ≥ b.re then a else b

/-- `Quantity::min` as written in `src/quantity.rs` lines 688-694: its body is
identical to `Quantity::max`. -/
noncomputable def Quantity.min (a b : Quantity) : Quantity :=
  if a.re ≥ b.re then a else b

/-- `Quantity::real_part`. -/
def Quantity.real_part (q : Quantity) : Quantity := ⟨q.re, 0, q.vre, 0, q.unit⟩

/-- `Quantity::imag_part`. -/
def Quantity.imag_part (q : Quantity) : Quantity := ⟨0, q.im, 0, q.vim, q.unit⟩

/-- `Quantity::sigma`: square roots of the variances, variance cleared. -/
noncomputable def Quantity.sigma (q : Quantity) : Quantity :=
  ⟨Real.sqrt q.vre, Real.sqrt q.vim, 0, 0, q.unit⟩

/-- `Quantity::sigma2`: the variances as values, with the unit squared. -/
def Quantity.sigma2 (q : Quantity) : Quantity :=
  ⟨q.vre, q.vim, 0, 0, SIUnit.mul q.unit q.unit⟩

/-- `Quantity::value`: strips the variances. -/
def Quantity.value (q : Quantity) : Quantity := ⟨q.re, q.im, 0, 0, q.unit⟩

/-- `Quantity::abs`: complex modulus with propagated variance. -/
noncomputable def Quantity.abs (q : Quantity) : Quantity :=
  ⟨Real.sqrt (q.re * q.re + q.im * q.im), 0,
   (q.vre * q.re * q.re + q.vim * q.im * q.im) / (q.re * q.re + q.im * q.im), 0,
   q.unit⟩

/-- `f64::atan2` modelled through the principal complex argument. -/
noncomputable def atan2 (y x : ℝ) : ℝ := Complex.arg ⟨x, y⟩

/-- `Quantity::arg` exactly as written in `src/quantity.rs` lines 726-735:
note the `(-1.0)` factor in the first `vre` summand. -/
noncomputable def Quantity.arg (q : Quantity) : Quantity :=
  let datan2 := 1 / squared (1 + q.im * q.im / (q.re * q.re))
  ⟨atan2 q.im q.re, 0,
   q.vre * datan2 * (-1) * q.im * q.im / squared (q.re * q.re) +
     q.vim * datan2 / q.re / q.re,
   0, SIUnit.unitless⟩

/-- Operator `+` body from `Tree::eval` (`src/ast/eval.rs` lines 240-258):
unit check, then `Quantity` addition. -/
def addQ (a b : Quantity) : Except Err Quantity :=
  if a.unit ≠ b.unit then .error (.unitMismatch "+") else .ok (a.add b)

/-- Operator `-` (binary) body from `Tree::eval` lines 274-292. -/
def subQ (a b : Quantity) : Except Err Quantity :=
  if a.unit ≠ b.unit then .error (.unitMismatch "-") else .ok (a.sub b)

/-- Operator `*` body from `Tree::eval` line 301: no unit check. -/
def mulQ (a b : Quantity) : Except Err Quantity := .ok (a.mul b)

/-- Operator `/` body from `Tree::eval` line 304: no unit check. -/
noncomputable def divQ (a b : Quantity) : Except Err Quantity := .ok (a.div b)

/-- Operator `==` body from `Tree::eval` lines 306-311: unit check, then the
derived structural `PartialEq` on `Quantity`. -/
noncomputable def eqQ (a b : Quantity) : Except Err Quantity :=
  if a.unit ≠ b.unit then .error (.unitMismatch "==")
  else .ok (if a = b then Quantity.of_f64 1 else Quantity.of_f64 0)

/-- Operator `>` from `Tree::eval` lines 312-317 with the
`eval_real_binary_operator` checks: realness of each operand is checked
before the unit check. -/
noncomputable def gtQ (a b : Quantity) : Except Err Quantity :=
  if ¬ a.is_real then .error (.notReal ">")
  else if ¬ b.is_real then .error (.notReal ">")
  else if a.unit ≠ b.unit then .error (.unitMismatch ">")
  else .ok (if a.re > b.re then Quantity.of_f64 1 else Quantity.of_f64 0)

/-- Operator `>=` from `Tree::eval` lines 318-323. -/
noncomputable def geQ (a b : Quantity) : Except Err Quantity :=
  if ¬ a.is_real then .error (.notReal ">=")
  else if ¬ b.is_real then .error (.notReal ">=")
  else if a.unit ≠ b.unit then .error (.unitMismatch ">=")
  else .ok (if a.re ≥ b.re then Quantity.of_f64 1 else Quantity.of_f64 0)

/-- Operator `<` from `Tree::eval` lines 324-329. -/
noncomputable def ltQ (a b : Quantity) : Except Err Quantity :=
  if ¬ a.is_real then .error (.notReal "<")
  else if ¬ b.is_real then .error (.notReal "<")
  else if a.unit ≠ b.unit then .error (.unitMismatch "<")
  else .ok (if a.re < b.re then Quantity.of_f64 1 else Quantity.of_f64 0)

/-- Operator `<=` from `Tree::eval` lines 330-335. -/
noncomputable def leQ (a b : Quantity) : Except Err Quantity :=
  if ¬ a.is_real then .error (.notReal "<=")
  else if ¬ b.is_real then .error (.notReal "<=")
  else if a.unit ≠ b.unit then .error (.unitMismatch "<=")
  else .ok (if a.re ≤ b.re then Quantity.of_f64 1 else Quantity.of_f64 0)

/-- Operator `pm` body from `Tree::eval` lines 384-392: unit check, then the
left operand with its variances replaced by the squares of the right
operand's real and imaginary values. -/
def pmQ (a b : Quantity) : Except Err Quantity :=
  if a.unit ≠ b.unit then .error (.unitMismatch "pm")
  else .ok { a with vre := b.re * b.re, vim := b.im * b.im }

/-- Function `max` body from `Tree::eval` lines 522-527: unit check, then
`Quantity::max`. -/
noncomputable def maxF (a b : Quantity) : Except Err Quantity :=
  if a.unit ≠ b.unit then .error (.unitMismatch "max") else .ok (a.max b)

/-- Function `min` body from `Tree::eval` lines 528-533: unit check, then
`Quantity::min`. -/
noncomputable def minF (a b : Quantity) : Except Err Quantity :=
  if a.unit ≠ b.unit then .error (.unitMismatch "min") else .ok (a.min b)

/-- Token type (`Lexem` in `src/lexer.rs`), in its final shape as consumed by
`src/ast/mod.rs`: with square brackets, keywords and a shift component in
unit blocks (the superseded `src/lexer.rs` lacks these). -/
inductive Lexem where
  | leftPar
  | rightPar
  | leftBracket
  | rightBracket
  | leftSqBracket
  | rightSqBracket
  | identifier (s : String)
  | number (rep dec : String)
  | operator (s : String)
  | keyword (s : String)
  | comma
  | semiColon
  | unitBlock (u : SIUnit) (factor shift : ℝ)
  | stringBlock (s : String)

/-- identifier-like words reclassified as operators (final set, §4.1:
the superseded `src/lexer.rs` has the first seven; `while` and `for` are
required by `src/ast/mod.rs`). -/
def string_operators : List String :=
  ["or", "and", "nand", "xor", "if", "else", "pm", "while", "for"]

/-- the `'consumerN` loop of `Lexer::lex`: a digit/dot run (`'` skipped),
then an alphabetic decorator which may end in digits.  Returns the number
representation, the decorator, and the unconsumed rest. -/
def lexNumber : List Char → String → String → Bool → String × String × List Char
  | [], num, dec, _ => (num, dec, [])
  | c :: rest, num, dec, insideDec =>
    if !insideDec && (c.isDigit || c == '.') then lexNumber rest (num.push c) dec insideDec
    else if !insideDec && c == '\'' then lexNumber rest num dec insideDec
    else if c.isAlpha || c == '°' then lexNumber rest num (dec.push c) true
    else if insideDec && c.isDigit then lexNumber rest num (dec.push c) insideDec
    else (num, dec, c :: rest)

/-- the `'consumerL` loop of `Lexer::lex`: identifier continuation characters. -/
def lexIdent : List Char → String → String × List Char
  | [], acc => (acc, [])
  | c :: rest, acc =>
    if c.isAlphanum || c == '_' then lexIdent rest (acc.push c) else (acc, c :: rest)

/-- prepends a token to a token-list result. -/
def consLex (x : Lexem) : Except Err (List Lexem) → Except Err (List Lexem)
  | .ok l => .ok (x :: l)
  | .error e => .error e

/-- Modelled from the spec: `Lexer::lex`, final iteration (§4.1).  Only the
superseded first iteration is present under `src/` (`src/lexer.rs`): it lacks
square brackets, the `$`/`&` operators and the `while`/`for`/`in`
reclassification that `src/ast/mod.rs` requires; where the two overlap this
definition follows `src/lexer.rs` (same character classes, same two-character
operator lookahead, same precedence of cases).  Unit blocks, string blocks
and comments are needed by no claim and are left unmodelled. -/
def lexF : Nat → List Char → Except Err (List Lexem)
  | 0, _ => .error .outOfFuel
  | _ + 1, [] => .ok []
  | fuel + 1, c :: rest =>
    if c == '(' then consLex .leftPar (lexF fuel rest)
    else if c == ')' then consLex .rightPar (lexF fuel rest)
    else if c == '{' then consLex .leftBracket (lexF fuel rest)
    else if c == '}' then consLex .rightBracket (lexF fuel rest)
    else if c == '[' then consLex .leftSqBracket (lexF fuel rest)
    else if c == ']' then consLex .rightSqBracket (lexF fuel rest)
    else if c == '|' then .error (.unmodelled "unit block")
    else if c == '"' then .error (.unmodelled "string block")
    else if c == ',' then consLex .comma (lexF fuel rest)
    else if c == ';' then consLex .semiColon (lexF fuel rest)
    else if c == '+' || c == '-' || c == '*' || c == '/' || c == '^' || c == '?'
        || c == '$' || c == '&' then
      consLex (.operator c.toString) (lexF fuel rest)
    else if c == ' ' || c == '\t' || c == '\n' then lexF fuel rest
    else if c == '=' then
      match rest with
      | '=' :: rest2 => consLex (.operator "==") (lexF fuel rest2)
      | _ => consLex (.operator "=") (lexF fuel rest)
    else if c == '!' then
      match rest with
      | '=' :: rest2 => consLex (.operator "!=") (lexF fuel rest2)
      | _ => consLex (.operator "!") (lexF fuel rest)
    else if c == '>' then
      match rest with
      | '=' :: rest2 => consLex (.operator ">=") (lexF fuel rest2)
      | _ => consLex (.operator ">") (lexF fuel rest)
    else if c == '<' then
      match rest with
      | '=' :: rest2 => consLex (.operator "<=") (lexF fuel rest2)
      | _ => consLex (.operator "<") (lexF fuel rest)
    else if c == '±' then consLex (.operator "pm") (lexF fuel rest)
    else if c.isDigit || c == '.' then
      match lexNumber rest c.toString "" false with
      | (num, dec, rest2) => consLex (.number num dec) (lexF fuel rest2)
    else if c.isAlpha || c == '_' then
      match lexIdent rest c.toString with
      | (word, rest2) =>
        if string_operators.contains word then consLex (.operator word) (lexF fuel rest2)
        else if word == "in" then consLex (.keyword word) (lexF fuel rest2)
        else consLex (.identifier word) (lexF fuel rest2)
    else .error (.lexErr c.toString)

/-- digit/dot scanner for numeric literals: integer accumulator, fraction
accumulator and fraction length; a second dot is a failure. -/
def decScan : List Char → Bool → Nat → Nat → Nat → Option (Nat × Nat × Nat)
  | [], _, i, f, l => some (i, f, l)
  | c :: rest, seenDot, i, f, l =>
    if c == '.' then
      if seenDot then none else decScan rest true i f l
    else if c.isDigit then
      if seenDot then decScan rest seenDot i (f * 10 + (c.toNat - 48)) (l + 1)
      else decScan rest seenDot (i * 10 + (c.toNat - 48)) f l
    else none

/-- the real number denoted by integer part `i`, fraction digits `f` of
length `l`. -/
noncomputable def numVal (i f l : Nat) : ℝ := (i : ℝ) + (f : ℝ) / (10 : ℝ) ^ l

/-- `num.parse::<f64>().unwrap()` at `src/ast/mod.rs` line 406, for the
digit/dot representations the lexer produces (`f64` modelled as `ℝ`, so the
value is exact). -/
noncomputable def parseDecimal (s : String) : Option ℝ :=
  match decScan s.toList false 0 0 0 with
  | some (i, f, l) => some (numVal i f l)
  | none => none

/-- `Node` of `src/ast/mod.rs` (`Variable` is `var` here: `variable` is a
Lean keyword). -/
inductive Node where
  | none
  | number (v : ℝ) (dec : String)
  | operator (s : String)
  | keyword (s : String)
  | var (s : String)
  | functionCall (s : String)
  | block
  | unitBlock (u : SIUnit) (factor shift : ℝ)
  | stringBlock (s : String)
  | matrixBlock (w h : Nat)
  | matrixIndexing (s : String)

/-- `Tree` of `src/ast/mod.rs` (named `ATree` here: `Tree` is taken by
Mathlib): a node, its ordered children, and the `has_value` flag. -/
inductive ATree where
  | mk (node : Node) (children : List ATree) (has_value : Bool)

/-- the `node` field. -/
def ATree.node : ATree → Node
  | .mk n _ _ => n

/-- the `children` field. -/
def ATree.children : ATree → List ATree
  | .mk _ c _ => c

/-- the `has_value` field. -/
def ATree.has_value : ATree → Bool
  | .mk _ _ b => b

/-- `Tree::is_none`. -/
def ATree.is_none : ATree → Bool
  | .mk .none _ hv => !hv
  | _ => false

/-- `Tree::is_operator`. -/
def ATree.is_operator : ATree → Bool
  | .mk (.operator _) _ hv => !hv
  | _ => false

/-- tests for a non-valued operator node with the given symbol: the common
body of the `ATree::is_prod`, `is_div`, `is_sum`, `is_sub`, `is_pow`,
`is_and`, `is_or`, `is_bang`, `is_question`, comparison, `is_assign`,
`is_if`, `is_else`, `is_plus_minus`, `is_value` (`$`), the `&` test,
`is_while` and `is_for` methods of `src/ast/mod.rs`. -/
def ATree.is_op (s : String) : ATree → Bool
  | .mk (.operator t) _ hv => !hv && t == s
  | _ => false

/-- `Tree::is_unitblock`. -/
def ATree.is_unitblock : ATree → Bool
  | .mk (.unitBlock _ _ _) _ hv => !hv
  | _ => false

/-- the placeholder `none_tree` of
`apply_all_prefixed_unary_operations_to_level`. -/
def noneTree : ATree := .mk .none [] false

/-- attaches one child and marks the node valued (the fold step of the unary
passes). -/
def ATree.fold1 (t c : ATree) : ATree := .mk t.node (t.children ++ [c]) true

/-- attaches left and right children and marks the node valued (the fold
step of `apply_binary_operation_to_level`). -/
def ATree.fold2 (t l r : ATree) : ATree := .mk t.node (t.children ++ [l, r]) true

/-- `&lexems[a..b]`. -/
def sliceL (l : List Lexem) (a b : Nat) : List Lexem := (l.drop a).take (b - a)

/-- one iteration of the `apply_all_prefixed_unary_operations_to_level` loop
(`src/ast/mod.rs` lines 171-205) at index `i`: `!` matches anywhere; `+`,
`-`, `$`, `&` match only when the element to the left is a non-valued
operator or absent (at `i = 0` the Rust code's `(i-1) as usize` wraps and
`get` yields the `none_tree` placeholder). -/
def unaryStep (level : List ATree) (i : Nat) : Except Err (List ATree) :=
  let left_ref := if i == 0 then noneTree else (level.get? (i - 1)).getD noneTree
  match level.get? i with
  | none => .ok level
  | some t =>
    if t.is_op "!" || ((left_ref.is_operator || left_ref.is_none) &&
        (t.is_op "+" || t.is_op "-" || t.is_op "$" || t.is_op "&")) then
      match level.get? (i + 1) with
      | none => .error (.parseErr "unary operator at the end of the level")
      | some right =>
        if right.has_value then .ok ((level.eraseIdx (i + 1)).set i (t.fold1 right))
        else .error (.parseErr "unary operator needs a valued operand")
    else .ok level

/-- the right-to-left countdown of the prefix-unary pass. -/
def unaryAux (level : List ATree) : Nat → Except Err (List ATree)
  | 0 => unaryStep level 0
  | i + 1 =>
    match unaryStep level (i + 1) with
    | .ok l2 => unaryAux l2 i
    | .error e => .error e

/-- `apply_all_prefixed_unary_operations_to_level` of `src/ast/mod.rs`. -/
def apply_all_prefixed_unary_operations_to_level (level : List ATree) :
    Except Err (List ATree) :=
  if level.length < 2 then .ok level else unaryAux level (level.length - 2)

/-- the left-to-right loop of `apply_binary_operation_to_level`
(`src/ast/mod.rs` lines 116-141): on a match the two valued neighbours are
removed and attached, and the index is kept; otherwise the index advances. -/
def binaryAux (p : ATree → Bool) : Nat → List ATree → Nat → Except Err (List ATree)
  | 0, _, _ => .error .outOfFuel
  | fuel + 1, level, i =>
    if i < level.length - 1 then
      match level.get? i with
      | none => .error (.parseErr "index out of level")
      | some t =>
        if p t then
          match level.get? (i + 1), level.get? (i - 1) with
          | some right, some left =>
            if left.has_value && right.has_value then
              binaryAux p fuel
                (((level.eraseIdx (i + 1)).eraseIdx (i - 1)).set (i - 1) (t.fold2 left right)) i
            else .error (.parseErr "binary operator needs valued operands")
          | _, _ => .error (.parseErr "binary operator at the level edge")
        else binaryAux p fuel level (i + 1)
    else .ok level

/-- `apply_binary_operation_to_level` of `src/ast/mod.rs`. -/
def apply_binary_operation_to_level (p : ATree → Bool) (level : List ATree) :
    Except Err (List ATree) :=
  if level.length < 3 then .ok level
  else binaryAux p (2 * level.length + 2) level 1

/-- the left-to-right loop of `apply_postfixed_unary_operation_to_level`
(`src/ast/mod.rs` lines 207-230). -/
def postfixAux (p : ATree → Bool) : Nat → List ATree → Nat → Except Err (List ATree)
  | 0, _, _ => .error .outOfFuel
  | fuel + 1, level, i =>
    if i < level.length then
      match level.get? i with
      | none => .error (.parseErr "index out of level")
      | some t =>
        if p t then
          match level.get? (i - 1) with
          | none => .error (.parseErr "postfix operator at the level start")
          | some left =>
            if left.has_value then
              postfixAux p fuel ((level.eraseIdx (i - 1)).set (i - 1) (t.fold1 left)) i
            else .error (.parseErr "postfix operator needs a valued operand")
        else postfixAux p fuel level (i + 1)
    else .ok level

/-- `apply_postfixed_unary_operation_to_level` of `src/ast/mod.rs`. -/
def apply_postfixed_unary_operation_to_level (p : ATree → Bool) (level : List ATree) :
    Except Err (List ATree) :=
  if level.length < 2 then .ok level
  else postfixAux p (2 * level.length + 2) level 1

/-- one step of the `if`/`while` statement folds (`src/ast/mod.rs` lines
232-266 and 308-342, identical up to the matched operator): a non-valued
occurrence of the operator followed by a valued condition and a valued
`Block` folds into a two-child node. -/
def ifWhileStep (opname : String) (level : List ATree) (i : Nat) : Except Err (List ATree) :=
  match level.get? i with
  | none => .ok level
  | some t =>
    if t.is_op opname then
      match level.get? (i + 1), level.get? (i + 2) with
      | some right1, some right2 =>
        if right1.has_value then
          match right2.node with
          | .block =>
            if right2.has_value then
              .ok (((level.eraseIdx (i + 2)).eraseIdx (i + 1)).set i (t.fold2 right1 right2))
            else .error (.parseErr "statement needs a valued block")
          | _ => .error (.parseErr "statement needs a block")
        else .error (.parseErr "statement needs a valued condition")
      | _, _ => .error (.parseErr "statement at the level edge")
    else .ok level

/-- the right-to-left countdown of the `if`/`while` folds. -/
def ifWhileAux (opname : String) (level : List ATree) : Nat → Except Err (List ATree)
  | 0 => ifWhileStep opname level 0
  | i + 1 =>
    match ifWhileStep opname level (i + 1) with
    | .ok l2 => ifWhileAux opname l2 i
    | .error e => .error e

/-- `apply_if_statements_to_level` of `src/ast/mod.rs`. -/
def apply_if_statements_to_level (level : List ATree) : Except Err (List ATree) :=
  if level.length < 3 then .ok level else ifWhileAux "if" level (level.length - 3)

/-- `apply_while_statements_to_level` of `src/ast/mod.rs`. -/
def apply_while_statements_to_level (level : List ATree) : Except Err (List ATree) :=
  if level.length < 3 then .ok level else ifWhileAux "while" level (level.length - 3)

/-- the loop of `apply_else_statements_to_level` (`src/ast/mod.rs` lines
268-306): an `else` whose left neighbour is an `if` node attaches its right
neighbour (an `if` node or a `Block`) as a third child of that `if` node,
removing both; the index moves back two places (clamped at zero). -/
def elseAux : Nat → List ATree → Nat → Except Err (List ATree)
  | 0, _, _ => .error .outOfFuel
  | fuel + 1, level, i =>
    if i ≥ 1 then
      match level.get? i with
      | none => .error (.parseErr "index out of level")
      | some t =>
        if t.is_op "else" then
          match level.get? (i + 1) with
          | none => .error (.parseErr "else at the level end")
          | some right =>
            let level2 := (level.eraseIdx (i + 1)).eraseIdx i
            match level2.get? (i - 1) with
            | none => .error (.parseErr "else at the level start")
            | some left =>
              match left.node with
              | .operator s =>
                if s == "if" then
                  match right.node with
                  | .operator s2 =>
                    if s2 == "if" then
                      elseAux fuel
                        (level2.set (i - 1) (.mk left.node (left.children ++ [right]) left.has_value))
                        (i - 2)
                    else .error (.parseErr "else needs an if or a block on its right")
                  | .block =>
                    elseAux fuel
                      (level2.set (i - 1) (.mk left.node (left.children ++ [right]) left.has_value))
                      (i - 2)
                  | _ => .error (.parseErr "else needs an if or a block on its right")
                else .error (.parseErr "else needs an if on its left")
              | _ => .error (.parseErr "else needs an if on its left")
        else elseAux fuel level (i - 1)
    else .ok level

/-- `apply_else_statements_to_level` of `src/ast/mod.rs`. -/
def apply_else_statements_to_level (level : List ATree) : Except Err (List ATree) :=
  if level.length < 3 then .ok level
  else elseAux (2 * level.length + 2) level (level.length - 2)

/-- one step of the `for` fold (`src/ast/mod.rs` lines 343-388): the window
`for <Variable> <Keyword in> <valued expr> <valued Block>` folds into a
three-child node (index variable, iterable, body). -/
def forStep (level : List ATree) (i : Nat) : Except Err (List ATree) :=
  match level.get? i with
  | none => .ok level
  | some t =>
    if t.is_op "for" then
      match level.get? (i + 1), level.get? (i + 2), level.get? (i + 3), level.get? (i + 4) with
      | some right1, some right2, some right3, some right4 =>
        let level2 := (((level.eraseIdx (i + 4)).eraseIdx (i + 3)).eraseIdx (i + 2)).eraseIdx (i + 1)
        match right1.node with
        | .var _ =>
          match right2.node with
          | .keyword key =>
            if key == "in" then
              if right3.has_value then
                match right4.node with
                | .block =>
                  if right4.has_value then
                    .ok (level2.set i (.mk t.node (t.children ++ [right1, right3, right4]) true))
                  else .error (.parseErr "for needs a valued block")
                | _ => .error (.parseErr "for needs a block")
              else .error (.parseErr "for needs a valued iterable")
            else .error (.parseErr "for needs the in keyword")
          | _ => .error (.parseErr "for needs the in keyword")
        | _ => .error (.parseErr "for needs a variable name")
      | _, _, _, _ => .error (.parseErr "for at the level edge")
    else .ok level

/-- the right-to-left countdown of the `for` fold. -/
def forAux (level : List ATree) : Nat → Except Err (List ATree)
  | 0 => forStep level 0
  | i + 1 =>
    match forStep level (i + 1) with
    | .ok l2 => forAux l2 i
    | .error e => .error e

/-- `apply_for_statements_to_level` of `src/ast/mod.rs` (the start index is
`len - 3`, exactly as in the source). -/
def apply_for_statements_to_level (level : List ATree) : Except Err (List ATree) :=
  if level.length < 5 then .ok level else forAux level (level.length - 3)

/-- the balanced scan to a matching right parenthesis (`'consumerPar` of the
`Lexem::LeftPar` branch of `ast`): returns the absolute index of the closer. -/
def findClosePar : List Lexem → Nat → Nat → Option Nat
  | [], _, _ => none
  | lx :: rest, idx, count =>
    let count2 :=
      match lx with
      | .leftPar => count + 1
      | .rightPar => count - 1
      | _ => count
    if count2 == 0 then some idx else findClosePar rest (idx + 1) count2

/-- scan state of the matrix-literal branch of `ast` (`src/ast/mod.rs` lines
446-521).  `elements` collects the token ranges of the entries (parsed after
the scan; the source parses them in place, with the same success behaviour). -/
structure MatrixScanState where
  elements : List (Nat × Nat)
  cur_matrix_width : Nat
  first_row : Bool
  matrix_width : Nat
  matrix_height : Nat
  element_from : Nat
  last_was_semicolon : Bool
  last_was_comma : Bool

/-- the `'consumerPar` loop of the matrix-literal branch of `ast`: commas and
semicolons at square-bracket depth 1 delimit entries and rows; rows must all
have the same width; returns the state and the index one past the closer. -/
def matrixScan : List Lexem → Nat → Nat → MatrixScanState →
    Except Err (MatrixScanState × Nat)
  | [], _, _, _ => .error (.parseErr "unbalanced square bracket")
  | lx :: rest, idx, count, st =>
    let count2 :=
      match lx with
      | .leftSqBracket => count + 1
      | .rightSqBracket => count - 1
      | _ => count
    if count2 == 0 then .ok (st, idx + 1)
    else if count2 == 1 then
      match lx with
      | .comma =>
        matrixScan rest (idx + 1) count2
          { st with elements := st.elements ++ [(st.element_from + 1, idx)],
                    element_from := idx,
                    cur_matrix_width := st.cur_matrix_width + 1,
                    last_was_comma := true, last_was_semicolon := false }
      | .semiColon =>
        let cw := st.cur_matrix_width + 1
        if !st.first_row && cw != st.matrix_width then
          .error (.parseErr "matrix row width mismatch")
        else
          matrixScan rest (idx + 1) count2
            { elements := st.elements ++ [(st.element_from + 1, idx)],
              cur_matrix_width := 0, first_row := false, matrix_width := cw,
              matrix_height := st.matrix_height + 1, element_from := idx,
              last_was_semicolon := true, last_was_comma := false }
      | _ =>
        matrixScan rest (idx + 1) count2
          { st with last_was_semicolon := false, last_was_comma := false }
    else matrixScan rest (idx + 1) count2 st

/-- the `'consumerPar` loop of the block branch of `ast` (`src/ast/mod.rs`
lines 523-578): semicolons at brace depth 1 (and square-bracket depth 0)
split the block into elements; negative depths and unbalanced brackets fail. -/
def blockScan : List Lexem → Nat → Int → Int → Nat → List (Nat × Nat) →
    Except Err (List (Nat × Nat) × Nat × Nat)
  | [], _, _, _, _, _ => .error (.parseErr "unbalanced bracket")
  | lx :: rest, idx, bc, sc, rfrom, slices =>
    match lx with
    | .semiColon =>
      if bc == 1 && sc == 0 then
        blockScan rest (idx + 1) bc sc (idx + 1) (slices ++ [(rfrom, idx)])
      else blockScan rest (idx + 1) bc sc rfrom slices
    | _ =>
      let bc2 := match lx with | .leftBracket => bc + 1 | .rightBracket => bc - 1 | _ => bc
      let sc2 := match lx with | .leftSqBracket => sc + 1 | .rightSqBracket => sc - 1 | _ => sc
      if bc2 == 0 then
        if sc2 != 0 then .error (.parseErr "unbalanced square bracket inside block")
        else .ok (slices, rfrom, idx + 1)
      else if bc2 < 0 then .error (.parseErr "closing bracket before opening bracket")
      else if sc2 < 0 then .error (.parseErr "closing square bracket before opening bracket")
      else blockScan rest (idx + 1) bc2 sc2 rfrom slices

/-- the argument scan of the function-call branch of `ast` (`src/ast/mod.rs`
lines 612-654): commas at parenthesis depth 1 (brace and square-bracket depth
0) split arguments. -/
def argScanPar : List Lexem → Nat → Int → Int → Int → Nat → List (Nat × Nat) →
    Except Err (List (Nat × Nat) × Nat × Nat)
  | [], _, _, _, _, _, _ => .error (.parseErr "unbalanced parenthesis")
  | lx :: rest, idx, pc, bc, sc, rfrom, slices =>
    match lx with
    | .comma =>
      if pc == 1 && bc == 0 && sc == 0 then
        argScanPar rest (idx + 1) pc bc sc idx (slices ++ [(rfrom + 1, idx)])
      else argScanPar rest (idx + 1) pc bc sc rfrom slices
    | _ =>
      let pc2 := match lx with | .leftPar => pc + 1 | .rightPar => pc - 1 | _ => pc
      let bc2 := match lx with | .leftBracket => bc + 1 | .rightBracket => bc - 1 | _ => bc
      let sc2 := match lx with | .leftSqBracket => sc + 1 | .rightSqBracket => sc - 1 | _ => sc
      if pc2 == 0 then .ok (slices, rfrom, idx + 1)
      else argScanPar rest (idx + 1) pc2 bc2 sc2 rfrom slices

/-- the index scan of the matrix-indexing branch of `ast` (`src/ast/mod.rs`
lines 679-719): commas at square-bracket depth 1 and parenthesis depth 0
split indices; the loop also stops at input exhaustion if the brackets are
balanced, as in the source. -/
def argScanSq : List Lexem → Nat → Int → Int → Nat → List (Nat × Nat) →
    Except Err (List (Nat × Nat) × Nat × Nat)
  | [], idx, sq, _, rfrom, slices =>
    if sq != 0 then .error (.parseErr "unbalanced square bracket")
    else .ok (slices, rfrom, idx)
  | lx :: rest, idx, sq, pc, rfrom, slices =>
    match lx with
    | .comma =>
      if sq == 1 && pc == 0 then
        argScanSq rest (idx + 1) sq pc idx (slices ++ [(rfrom + 1, idx)])
      else argScanSq rest (idx + 1) sq pc rfrom slices
    | _ =>
      let sq2 := match lx with | .leftSqBracket => sq + 1 | .rightSqBracket => sq - 1 | _ => sq
      let pc2 := match lx with | .leftPar => pc + 1 | .rightPar => pc - 1 | _ => pc
      if sq2 == 0 && pc2 == 0 then .ok (slices, rfrom, idx + 1)
      else argScanSq rest (idx + 1) sq2 pc2 rfrom slices

/-- parses each collected token range with the given sub-parser, in order. -/
def astList (sub : List Lexem → Except Err ATree) (lexems : List Lexem) :
    List (Nat × Nat) → Except Err (List ATree)
  | [] => .ok []
  | (a, b) :: rest =>
    match sub (sliceL lexems a b) with
    | .ok t =>
      match astList sub lexems rest with
      | .ok ts => .ok (t :: ts)
      | .error e => .error e
    | .error e => .error e

/-- Phase A of `ast` (`src/ast/mod.rs` lines 399-776): the token slice is
scanned left to right, producing one tree per atom into the working level;
parenthesized regions, matrix literals, blocks, function calls and matrix
indexings recurse through `sub` on their sub-ranges. -/
noncomputable def atomize (sub : List Lexem → Except Err ATree) :
    Nat → List Lexem → Nat → List ATree → Except Err (List ATree)
  | 0, _, _, _ => .error .outOfFuel
  | fuel + 1, lexems, i, level =>
    match lexems.get? i with
    | none => .ok level
    | some lx =>
      match lx with
      | .number rep dec =>
        match parseDecimal rep with
        | some v => atomize sub fuel lexems (i + 1) (level ++ [.mk (.number v dec) [] true])
        | none => .error (.parseErr "invalid number literal")
      | .operator s => atomize sub fuel lexems (i + 1) (level ++ [.mk (.operator s) [] false])
      | .keyword s => atomize sub fuel lexems (i + 1) (level ++ [.mk (.keyword s) [] false])
      | .unitBlock u f sh =>
        atomize sub fuel lexems (i + 1) (level ++ [.mk (.unitBlock u f sh) [] false])
      | .stringBlock s =>
        atomize sub fuel lexems (i + 1) (level ++ [.mk (.stringBlock s) [] true])
      | .leftPar =>
        match findClosePar (lexems.drop (i + 1)) (i + 1) 1 with
        | none => .error (.parseErr "unbalanced parenthesis")
        | some cto =>
          match sub (sliceL lexems (i + 1) cto) with
          | .ok t => atomize sub fuel lexems (cto + 1) (level ++ [t])
          | .error e => .error e
      | .leftSqBracket =>
        match matrixScan (lexems.drop (i + 1)) (i + 1) 1 ⟨[], 0, true, 0, 0, i, false, false⟩ with
        | .error e => .error e
        | .ok (st, iExit) =>
          match
            (if !st.last_was_semicolon then
              let cw := if st.last_was_comma then st.cur_matrix_width
                        else st.cur_matrix_width + 1
              if !st.first_row && cw != st.matrix_width then
                .error (.parseErr "matrix row width mismatch")
              else .ok (st.elements ++ [(st.element_from + 1, iExit - 1)], cw, st.matrix_height + 1)
            else .ok (st.elements, st.matrix_width, st.matrix_height) :
              Except Err (List (Nat × Nat) × Nat × Nat)) with
          | .error e => .error e
          | .ok (slices, w, h) =>
            match astList sub lexems slices with
            | .ok children =>
              atomize sub fuel lexems iExit (level ++ [.mk (.matrixBlock w h) children true])
            | .error e => .error e
      | .leftBracket =>
        match blockScan (lexems.drop (i + 1)) (i + 1) 1 0 (i + 1) [] with
        | .error e => .error e
        | .ok (slices, lastFrom, iExit) =>
          match astList sub lexems (slices ++ [(lastFrom, iExit - 1)]) with
          | .ok children =>
            atomize sub fuel lexems iExit (level ++ [.mk .block children true])
          | .error e => .error e
      | .identifier s =>
        if i == lexems.length - 1 then
          atomize sub fuel lexems (i + 1) (level ++ [.mk (.var s) [] true])
        else
          match lexems.get? (i + 1) with
          | some .leftPar =>
            (match lexems.get? (i + 2) with
            | none => .error (.parseErr "unbalanced parenthesis")
            | some .rightPar =>
              atomize sub fuel lexems (i + 3) (level ++ [.mk (.functionCall s) [] true])
            | some _ =>
              match argScanPar (lexems.drop (i + 2)) (i + 2) 1 0 0 (i + 1) [] with
              | .error e => .error e
              | .ok (slices, lastFrom, iExit) =>
                match astList sub lexems (slices ++ [(lastFrom + 1, iExit - 1)]) with
                | .ok children =>
                  atomize sub fuel lexems iExit (level ++ [.mk (.functionCall s) children true])
                | .error e => .error e)
          | some .leftSqBracket =>
            (match lexems.get? (i + 2) with
            | none => .error (.parseErr "unbalanced parenthesis")
            | some .rightPar => .error (.parseErr "matrix indexing without indices")
            | some _ =>
              match argScanSq (lexems.drop (i + 2)) (i + 2) 1 0 (i + 1) [] with
              | .error e => .error e
              | .ok (slices, lastFrom, iExit) =>
                match astList sub lexems (slices ++ [(lastFrom + 1, iExit - 1)]) with
                | .ok children =>
                  atomize sub fuel lexems iExit
                    (level ++ [.mk (.matrixIndexing s) children true])
                | .error e => .error e)
          | _ => atomize sub fuel lexems (i + 1) (level ++ [.mk (.var s) [] true])
      | .rightPar => .error (.parseErr "closing parenthesis with no matching opening")
      | .rightBracket => .error (.parseErr "closing bracket with no matching opening")
      | .rightSqBracket => .error (.parseErr "closing square bracket with no matching opening")
      | .comma => .error (.parseErr "comma outside of any function call or matrix")
      | .semiColon => .error (.parseErr "semicolon outside of any block")

/-- runs the Phase B passes in sequence, stopping at the first failure. -/
def runPasses : List (List ATree → Except Err (List ATree)) → List ATree →
    Except Err (List ATree)
  | [], level => .ok level
  | f :: fs, level =>
    match f level with
    | .ok l2 => runPasses fs l2
    | .error e => .error e

/-- the fixed pass order of `ast` (`src/ast/mod.rs` lines 778-827): prefix
unaries, postfix `?`, postfix unit block, `^`, `*`/`/`, `pm`, `+`/`-`,
comparisons, `and`, `or`, `if`, `else`, `while`, `for`, `=`. -/
def thePasses : List (List ATree → Except Err (List ATree)) :=
  [apply_all_prefixed_unary_operations_to_level,
   apply_postfixed_unary_operation_to_level (fun t => t.is_op "?"),
   apply_postfixed_unary_operation_to_level ATree.is_unitblock,
   apply_binary_operation_to_level (fun t => t.is_op "^"),
   apply_binary_operation_to_level (fun t => t.is_op "*" || t.is_op "/"),
   apply_binary_operation_to_level (fun t => t.is_op "pm"),
   apply_binary_operation_to_level (fun t => t.is_op "+" || t.is_op "-"),
   apply_binary_operation_to_level (fun t =>
     t.is_op "==" || t.is_op ">" || t.is_op ">=" || t.is_op "<" || t.is_op "<="),
   apply_binary_operation_to_level (fun t => t.is_op "and"),
   apply_binary_operation_to_level (fun t => t.is_op "or"),
   apply_if_statements_to_level,
   apply_else_statements_to_level,
   apply_while_statements_to_level,
   apply_for_statements_to_level,
   apply_binary_operation_to_level (fun t => t.is_op "=")]

/-- `ast` of `src/ast/mod.rs`: empty input yields a valued `None` tree;
otherwise Phase A atomization, the Phase B passes in their fixed order, and
the final check that exactly one node remains. -/
noncomputable def astF : Nat → List Lexem → Except Err ATree
  | 0, _ => .error .outOfFuel
  | fuel + 1, lexems =>
    if lexems.length == 0 then .ok (.mk .none [] true)
    else
      match atomize (astF fuel) (lexems.length + 1) lexems 0 [] with
      | .error e => .error e
      | .ok level0 =>
        match runPasses thePasses level0 with
        | .error e => .error e
        | .ok level =>
          match level with
          | [t] => .ok t
          | [] => .error (.parseErr "the parsing finished with an empty level")
          | _ => .error (.parseErr "the parsing finished with more than one node")

/-- `RValue` of `src/ast/eval.rs`: the evaluator's value type. -/
inductive RValue where
  | void
  | number (q : Quantity)
  | string (s : String)
  | matrix (w h : Nat) (v : List RValue)

/-- the variable environment (`vars: HashMap<String, RValue>`), modelled as
an association list; insertion shadows, which is observationally equal to
`HashMap::insert` under lookup. -/
abbrev Env := List (String × RValue)

/-- `vars.get(name)`. -/
def lookupVar : Env → String → Option RValue
  | [], _ => none
  | (k, v) :: rest, name => if k == name then some v else lookupVar rest name

/-- `vars.insert(name, value)`. -/
def insertVar (env : Env) (k : String) (v : RValue) : Env := (k, v) :: env

/-- `eval_number_unary_operator` / `eval_number_unary_function` of
`src/ast/eval.rs` minus the arity test (done at the call site): evaluates
the operand, requires a `Number`, applies the body. -/
def evalUn (ev : ATree → Env → Except Err (RValue × Env)) (opname : String)
    (c : ATree) (env : Env) (f : Quantity → Except Err Quantity) :
    Except Err (RValue × Env) :=
  match ev c env with
  | .ok (.number n0, env1) =>
    match f n0 with
    | .ok q => .ok (.number q, env1)
    | .error e => .error e
  | .ok (_, _) => .error (.typeMismatch opname)
  | .error e => .error e

/-- `eval_number_binary_operator` / `eval_number_binary_function` of
`src/ast/eval.rs` minus the arity test: evaluates both operands in order
(threading the environment), requires `Number`s, applies the body. -/
def evalBin (ev : ATree → Env → Except Err (RValue × Env)) (opname : String)
    (c1 c2 : ATree) (env : Env) (f : Quantity → Quantity → Except Err Quantity) :
    Except Err (RValue × Env) :=
  match ev c1 env with
  | .ok (v0, env1) =>
    match ev c2 env1 with
    | .ok (v1, env2) =>
      match v0 with
      | .number n0 =>
        match v1 with
        | .number n1 =>
          match f n0 n1 with
          | .ok q => .ok (.number q, env2)
          | .error e => .error e
        | _ => .error (.typeMismatch opname)
      | _ => .error (.typeMismatch opname)
    | .error e => .error e
  | .error e => .error e

/-- `eval_real_binary_operator` of `src/ast/eval.rs` minus the arity test:
as `evalBin`, but the left operand's realness is checked before the right
operand's shape, exactly as in the macro. -/
noncomputable def evalBinReal (ev : ATree → Env → Except Err (RValue × Env))
    (opname : String) (c1 c2 : ATree) (env : Env)
    (f : Quantity → Quantity → Except Err Quantity) : Except Err (RValue × Env) :=
  match ev c1 env with
  | .ok (v0, env1) =>
    match ev c2 env1 with
    | .ok (v1, env2) =>
      match v0 with
      | .number n0 =>
        if ¬ n0.is_real then .error (.notReal opname)
        else
          match v1 with
          | .number n1 =>
            match f n0 n1 with
            | .ok q => .ok (.number q, env2)
            | .error e => .error e
          | _ => .error (.typeMismatch opname)
      | _ => .error (.typeMismatch opname)
    | .error e => .error e
  | .error e => .error e

/-- evaluates a child list in order, threading the environment (the child
loops of `Block`, `MatrixBlock`, `write` and `print`). -/
def evalList (ev : ATree → Env → Except Err (RValue × Env)) :
    List ATree → Env → Except Err (List RValue × Env)
  | [], env => .ok ([], env)
  | c :: rest, env =>
    match ev c env with
    | .ok (v, env1) =>
      match evalList ev rest env1 with
      | .ok (vs, env2) => .ok (v :: vs, env2)
      | .error e => .error e
    | .error e => .error e

/-- the `while` loop of `Tree::eval` (`src/ast/eval.rs` lines 393-410):
condition, then body, collecting each body result; a non-`Number` condition
fails; the collected results become a 1×N column matrix at the call site. -/
noncomputable def evalWhile (ev : ATree → Env → Except Err (RValue × Env)) :
    Nat → ATree → ATree → Env → List RValue → Except Err (List RValue × Env)
  | 0, _, _, _, _ => .error .outOfFuel
  | fuel + 1, c, b, env, acc =>
    match ev c env with
    | .ok (.number cond, env1) =>
      if ¬ cond.eq_f64 0 then
        match ev b env1 with
        | .ok (v, env2) => evalWhile ev fuel c b env2 (acc ++ [v])
        | .error e => .error e
      else .ok (acc, env1)
    | .ok (_, _) => .error (.typeMismatch "while")
    | .error e => .error e

/-- the `for` loop over a matrix-valued variable (`src/ast/eval.rs` lines
414-442): column-major iteration (`x` over the width outside, `y` over the
height inside, flattened here as `k = x*h + y`), re-reading the variable at
every step, binding the index variable to the cell `v[y*w + x]`. -/
def evalForVar (ev : ATree → Env → Except Err (RValue × Env)) :
    Nat → String → String → ATree → Nat → Nat → Nat → Env → List RValue →
    Except Err (List RValue × Env)
  | 0, _, _, _, _, _, _, _, _ => .error .outOfFuel
  | fuel + 1, index_name, matrix_name, body, w, h, k, env, acc =>
    if k < w * h then
      match lookupVar env matrix_name with
      | none => .error (.undefinedVariable matrix_name)
      | some (.matrix _ _ v) =>
        match v.get? ((k % h) * w + k / h) with
        | none => .error (.outOfBounds matrix_name)
        | some cell =>
          match ev body (insertVar env index_name cell) with
          | .ok (r, env2) =>
            evalForVar ev fuel index_name matrix_name body w h (k + 1) env2 (acc ++ [r])
          | .error e => .error e
      | some _ => .error (.typeMismatch "for")
    else .ok (acc, env)

/-- the `for` loop over a freshly evaluated matrix expression
(`src/ast/eval.rs` lines 443-457): as `evalForVar` but over the captured
cell vector. -/
def evalForVec (ev : ATree → Env → Except Err (RValue × Env)) :
    Nat → String → List RValue → ATree → Nat → Nat → Nat → Env → List RValue →
    Except Err (List RValue × Env)
  | 0, _, _, _, _, _, _, _, _ => .error .outOfFuel
  | fuel + 1, index_name, vec, body, w, h, k, env, acc =>
    if k < w * h then
      match vec.get? ((k % h) * w + k / h) with
      | none => .error (.outOfBounds "for")
      | some cell =>
        match ev body (insertVar env index_name cell) with
        | .ok (r, env2) =>
          evalForVec ev fuel index_name vec body w h (k + 1) env2 (acc ++ [r])
        | .error e => .error e
    else .ok (acc, env)

/-- the index extraction of the `Node::MatrixIndexing` branch
(`src/ast/eval.rs` lines 744-760 and 774-790): a matrix index must be a
`Number` that is pure (no imaginary part, no variance), integer, and
non-zero. -/
noncomputable def toIndexInt (v : RValue) : Except Err Int :=
  match v with
  | .number n =>
    if n.im = 0 ∧ n.vim = 0 ∧ n.vre = 0 then
      if n.re = (⌊n.re⌋ : ℝ) ∧ n.re ≠ 0 then .ok ⌊n.re⌋
      else .error (.indexNotInteger "matrix index")
    else .error (.indexNotInteger "matrix index")
  | _ => .error (.typeMismatch "matrix index")

/-- the `assert` failure path: the optional message argument is evaluated
(its own failure wins), then the assertion failure is raised. -/
def assertPanic (ev : ATree → Env → Except Err (RValue × Env))
    (msg : Option ATree) (env : Env) : Except Err (RValue × Env) :=
  match msg with
  | some m =>
    match ev m env with
    | .ok _ => .error .assertFailed
    | .error e => .error e
  | none => .error .assertFailed

/-- `Tree::eval` of `src/ast/eval.rs`: dispatch on the node kind.  Rust
panics are `Except.error`s; `print`/`write` evaluate their arguments for
their effects on the environment but their output is not modelled; string
interpolation and non-trivial number decorators are outside the claims'
scope and yield `Err.unmodelled`. -/
noncomputable def evalF : Nat → ATree → Env → Except Err (RValue × Env)
  | 0, _, _ => .error .outOfFuel
  | fuel + 1, t, env =>
    match t.node with
    | .number v dec =>
      if dec == "" then .ok (.number ⟨v, 0, 0, 0, SIUnit.unitless⟩, env)
      else if dec == "i" || dec == "j" then .ok (.number ⟨0, v, 0, 0, SIUnit.unitless⟩, env)
      else .error (.unmodelled "unit decorator")
    | .operator s =>
      match s with
      | "!" =>
        match t.children with
        | [c] => evalUn (evalF fuel) "!" c env
            (fun n0 => .ok (if n0.eq_f64 0 then .of_f64 1 else .of_f64 0))
        | _ => .error (.arity "!" t.children.length)
      | "?" =>
        match t.children with
        | [c] => evalUn (evalF fuel) "?" c env
            (fun n0 => .ok (if ¬ n0.eq_f64 0 then .of_f64 1 else .of_f64 0))
        | _ => .error (.arity "?" t.children.length)
      | "&" =>
        match t.children with
        | [c] => evalUn (evalF fuel) "&" c env (fun n0 => .ok n0.sigma)
        | _ => .error (.arity "&" t.children.length)
      | "$" =>
        match t.children with
        | [c] => evalUn (evalF fuel) "$" c env (fun n0 => .ok n0.value)
        | _ => .error (.arity "$" t.children.length)
      | "+" =>
        match t.children with
        | [c] =>
          (match evalF fuel c env with
          | .ok (.number n, env1) => .ok (.number n, env1)
          | .ok (_, _) => .error (.typeMismatch "+")
          | .error e => .error e)
        | [c1, c2] => evalBin (evalF fuel) "+" c1 c2 env addQ
        | _ => .error (.arity "+" t.children.length)
      | "-" =>
        match t.children with
        | [c] => evalUn (evalF fuel) "-" c env (fun n => .ok n.neg)
        | [c1, c2] => evalBin (evalF fuel) "-" c1 c2 env subQ
        | _ => .error (.arity "-" t.children.length)
      | "^" => .error (.unimplemented "^")
      | "*" =>
        match t.children with
        | [c1, c2] => evalBin (evalF fuel) "*" c1 c2 env mulQ
        | _ => .error (.arity "*" t.children.length)
      | "/" =>
        match t.children with
        | [c1, c2] => evalBin (evalF fuel) "/" c1 c2 env divQ
        | _ => .error (.arity "/" t.children.length)
      | "==" =>
        match t.children with
        | [c1, c2] => evalBin (evalF fuel) "==" c1 c2 env eqQ
        | _ => .error (.arity "==" t.children.length)
      | ">" =>
        match t.children with
        | [c1, c2] => evalBinReal (evalF fuel) ">" c1 c2 env gtQ
        | _ => .error (.arity ">" t.children.length)
      | ">=" =>
        match t.children with
        | [c1, c2] => evalBinReal (evalF fuel) ">=" c1 c2 env geQ
        | _ => .error (.arity ">=" t.children.length)
      | "<" =>
        match t.children with
        | [c1, c2] => evalBinReal (evalF fuel) "<" c1 c2 env ltQ
        | _ => .error (.arity "<" t.children.length)
      | "<=" =>
        match t.children with
        | [c1, c2] => evalBinReal (evalF fuel) "<=" c1 c2 env leQ
        | _ => .error (.arity "<=" t.children.length)
      | "and" =>
        match t.children with
        | [c1, c2] => evalBin (evalF fuel) "and" c1 c2 env
            (fun n0 n1 => .ok (if ¬ n0.eq_f64 0 ∧ ¬ n1.eq_f64 0 then .of_f64 1 else .of_f64 0))
        | _ => .error (.arity "and" t.children.length)
      | "or" =>
        match t.children with
        | [c1, c2] => evalBin (evalF fuel) "or" c1 c2 env
            (fun n0 n1 => .ok (if ¬ n0.eq_f64 0 ∨ ¬ n1.eq_f64 0 then .of_f64 1 else .of_f64 0))
        | _ => .error (.arity "or" t.children.length)
      | "=" =>
        match t.children with
        | [l, r] =>
          (match l.node with
          | .var varname =>
            (match evalF fuel r env with
            | .ok (v, env1) => .ok (.void, insertVar env1 varname v)
            | .error e => .error e)
          | _ => .error (.typeMismatch "="))
        | _ => .error (.arity "=" t.children.length)
      | "if" =>
        match t.children with
        | [c, b] =>
          (match evalF fuel c env with
          | .ok (.number cond, env1) =>
            if ¬ cond.eq_f64 0 then evalF fuel b env1 else .ok (.void, env1)
          | .ok (_, env1) => .ok (.void, env1)
          | .error e => .error e)
        | [c, b, e3] =>
          (match evalF fuel c env with
          | .ok (.number cond, env1) =>
            if ¬ cond.eq_f64 0 then evalF fuel b env1 else evalF fuel e3 env1
          | .ok (_, env1) => evalF fuel e3 env1
          | .error e => .error e)
        | _ => .error (.arity "if" t.children.length)
      | "pm" =>
        match t.children with
        | [c1, c2] => evalBin (evalF fuel) "pm" c1 c2 env pmQ
        | _ => .error (.arity "pm" t.children.length)
      | "while" =>
        match t.children with
        | [c, b] =>
          (match evalWhile (evalF fuel) fuel c b env [] with
          | .ok (res, env1) => .ok (.matrix 1 res.length res, env1)
          | .error e => .error e)
        | _ => .error (.arity "while" t.children.length)
      | "for" =>
        match t.children with
        | [iv, m, body] =>
          (match iv.node with
          | .var index_name =>
            (match m.node with
            | .var matrix_name =>
              (match lookupVar env matrix_name with
              | none => .error (.undefinedVariable matrix_name)
              | some (.matrix w h _) =>
                (match evalForVar (evalF fuel) fuel index_name matrix_name body w h 0 env [] with
                | .ok (res, env1) => .ok (.matrix w h res, env1)
                | .error e => .error e)
              | some _ => .error (.typeMismatch "for"))
            | _ =>
              if m.has_value then
                match evalF fuel m env with
                | .ok (.matrix w h vec, env1) =>
                  (match evalForVec (evalF fuel) fuel index_name vec body w h 0 env1 [] with
                  | .ok (res, env2) => .ok (.matrix w h res, env2)
                  | .error e => .error e)
                | .ok (_, _) => .error (.typeMismatch "for")
                | .error e => .error e
              else .error (.typeMismatch "for"))
          | _ => .error (.typeMismatch "for"))
        | _ => .error (.arity "for" t.children.length)
      | _ => .error (.unknownOperator s)
    | .functionCall fname =>
      match fname with
      | "sin" =>
        match t.children with
        | [c] => evalUn (evalF fuel) "sin" c env
            (fun n => if ¬ n.unit.is_unitless then .error (.notUnitless "sin") else .ok n.sin)
        | _ => .error (.arity "sin" t.children.length)
      | "cos" =>
        match t.children with
        | [c] => evalUn (evalF fuel) "cos" c env
            (fun n => if ¬ n.unit.is_unitless then .error (.notUnitless "cos") else .ok n.cos)
        | _ => .error (.arity "cos" t.children.length)
      | "i" =>
        match t.children with
        | [c] => evalUn (evalF fuel) "i" c env
            (fun n => .ok ⟨-n.im, n.re, n.vim, n.vre, n.unit⟩)
        | _ => .error (.arity "i" t.children.length)
      | "exp" =>
        match t.children with
        | [c] => evalUn (evalF fuel) "exp" c env
            (fun n => if ¬ n.unit.is_unitless then .error (.notUnitless "exp") else .ok n.exp)
        | _ => .error (.arity "exp" t.children.length)
      | "Re" | "real" =>
        match t.children with
        | [c] => evalUn (evalF fuel) "Re" c env (fun n => .ok n.real_part)
        | _ => .error (.arity "Re" t.children.length)
      | "Im" | "imag" =>
        match t.children with
        | [c] => evalUn (evalF fuel) "Im" c env (fun n => .ok n.imag_part)
        | _ => .error (.arity "Im" t.children.length)
      | "sigma" =>
        match t.children with
        | [c] => evalUn (evalF fuel) "sigma" c env (fun n => .ok n.sigma)
        | _ => .error (.arity "sigma" t.children.length)
      | "sigma2" =>
        match t.children with
        | [c] => evalUn (evalF fuel) "sigma2" c env (fun n => .ok n.sigma2)
        | _ => .error (.arity "sigma2" t.children.length)
      | "value" =>
        match t.children with
        | [c] => evalUn (evalF fuel) "value" c env (fun n => .ok n.value)
        | _ => .error (.arity "value" t.children.length)
      | "abs" =>
        match t.children with
        | [c] => evalUn (evalF fuel) "value" c env (fun n => .ok n.abs)
        | _ => .error (.arity "value" t.children.length)
      | "arg" =>
        match t.children with
        | [c] => evalUn (evalF fuel) "value" c env (fun n => .ok n.arg)
        | _ => .error (.arity "value" t.children.length)
      | "max" =>
        match t.children with
        | [c1, c2] => evalBin (evalF fuel) "max" c1 c2 env maxF
        | _ => .error (.arity "max" t.children.length)
      | "min" =>
        match t.children with
        | [c1, c2] => evalBin (evalF fuel) "min" c1 c2 env minF
        | _ => .error (.arity "min" t.children.length)
      | "write" =>
        if t.children.length > 0 then
          match evalList (evalF fuel) t.children env with
          | .ok (_, env1) => .ok (.void, env1)
          | .error e => .error e
        else .error (.arity "write" 0)
      | "print" =>
        if t.children.length > 0 then
          match evalList (evalF fuel) t.children env with
          | .ok (_, env1) => .ok (.void, env1)
          | .error e => .error e
        else .error (.arity "print" 0)
      | "assert" =>
        match t.children with
        | [c] | [c, _] =>
          (match evalF fuel c env with
          | .ok (.number n, env1) =>
            if n.re ≠ 1 ∨ n.im ≠ 0 ∨ n.vre ≠ 0 ∨ n.vim ≠ 0 then
              assertPanic (evalF fuel) (t.children.get? 1) env1
            else .ok (.void, env1)
          | .ok (_, env1) => assertPanic (evalF fuel) (t.children.get? 1) env1
          | .error e => .error e)
        | _ => .error (.arity "assert" t.children.length)
      | "error" =>
        match t.children with
        | [c] =>
          (match evalF fuel c env with
          | .ok _ => .error (.userError "error")
          | .error e => .error e)
        | [] => .error (.userError "error")
        | _ => .error (.arity "error" t.children.length)
      | _ => .error (.unknownFunction fname)
    | .var varname =>
      (match lookupVar env varname with
      | some v => .ok (v, env)
      | none => .error (.undefinedVariable varname))
    | .block =>
      (match evalList (evalF fuel) t.children env with
      | .ok (vs, env1) => .ok (vs.getLast?.getD .void, env1)
      | .error e => .error e)
    | .unitBlock u factor shift =>
      (match t.children with
      | [c] =>
        (match evalF fuel c env with
        | .ok (.number n0, env1) =>
          if n0.unit = SIUnit.unitless then
            .ok (.number (({ n0 with unit := u, re := n0.re + shift } : Quantity).mul_f64 factor), env1)
          else .error (.notUnitless "UnitBlock")
        | .ok (_, _) => .error (.typeMismatch "UnitBlock")
        | .error e => .error e)
      | _ => .error (.arity "UnitBlock" t.children.length))
    | .stringBlock _ => .error (.unmodelled "string interpolation")
    | .matrixBlock w h =>
      (match evalList (evalF fuel) t.children env with
      | .ok (vs, env1) => .ok (.matrix w h vs, env1)
      | .error e => .error e)
    | .matrixIndexing name =>
      (match (match t.children.get? 0 with
              | some c0 => evalF fuel c0 env
              | none => .ok (.void, env)) with
      | .error e => .error e
      | .ok (i0v, env1) =>
        match (match t.children.get? 1 with
               | some c1 => evalF fuel c1 env1
               | none => .ok (.void, env1)) with
        | .error e => .error e
        | .ok (i1v, env2) =>
          match toIndexInt i0v with
          | .error e => .error e
          | .ok oy =>
            match lookupVar env2 name with
            | none => .error (.undefinedVariable name)
            | some (.matrix w h v) =>
              if t.children.length == 1 && w == 1 then
                let index_y := (if oy < 0 then (h : ℤ) + oy + 1 else oy) - 1
                if 0 ≤ index_y ∧ index_y < (h : ℤ) then
                  match v.get? index_y.toNat with
                  | some cell => .ok (cell, env2)
                  | none => .error (.outOfBounds name)
                else .error (.outOfBounds name)
              else if t.children.length == 2 then
                match toIndexInt i1v with
                | .error e => .error e
                | .ok ox =>
                  let index_x := (if ox < 0 then (w : ℤ) + ox + 1 else ox) - 1
                  let index_y := (if oy < 0 then (h : ℤ) + oy + 1 else oy) - 1
                  let linear := index_y * (w : ℤ) + index_x
                  if 0 ≤ linear then
                    match v.get? linear.toNat with
                    | some cell => .ok (cell, env2)
                    | none => .error (.outOfBounds name)
                  else .error (.outOfBounds name)
              else if t.children.length == 1 then
                .error (.typeMismatch "single index on a matrix that is not a column vector")
              else .error (.arity name t.children.length)
            | some _ => .error (.typeMismatch name))
    | .keyword s => .error (.typeMismatch s)
    | .none => .ok (.void, env)

/-- the whole pipeline, as composed in `src/main.rs`: lex, build the tree,
evaluate it against a fresh empty environment, and return the value. -/
noncomputable def runProgram (fuel : Nat) (src : String) : Except Err RValue :=
  match lexF fuel src.toList with
  | .error e => .error e
  | .ok toks =>
    match astF fuel toks with
    | .error e => .error e
    | .ok t =>
      match evalF fuel t [] with
      | .ok (v, _) => .ok v
      | .error e => .error e

/-- the metre unit (exponent vector of `m`). -/
def uMetre : SIUnit := ⟨0, 1, 0, 0, 0, 0, 0⟩

/-- the second unit (exponent vector of `s`). -/
def uSecond : SIUnit := ⟨0, 0, 1, 0, 0, 0, 0⟩

/-- Modelled from the spec: the first-order error-propagation rule for the
real part of `exp`, "each output partial derivative squared times the
corresponding input variance, summed" (§4.4); stated to compare with the
`vre` actually computed by `Quantity::exp`. -/
noncomputable def exp_vre_spec (q : Quantity) : ℝ :=
  squared (Real.exp q.re * Real.cos q.im) * q.vre +
    squared (Real.exp q.re * Real.sin q.im) * q.vim

/-- C10: `Quantity::min` returns exactly the same result as `Quantity::max`:
one of the two operands, the one whose real part is greater or equal; in
particular it never returns the smaller of two distinct real quantities. -/
theorem c10_min_eq_max (a b : Quantity) :
    Quantity.min a b = Quantity.max a b ∧
    (Quantity.min a b = a ∨ Quantity.min a b = b) ∧
    a.re ≤ (Quantity.min a b).re ∧ b.re ≤ (Quantity.min a b).re := by
  refine ⟨rfl, ?_, ?_, ?_⟩ <;> unfold Quantity.min <;> split_ifs with h
  · exact Or.inl rfl
  · exact Or.inr rfl
  · exact le_refl _
  · exact le_of_lt (lt_of_not_ge h)
  · exact h
  · exact le_refl _

/-- C2: `Quantity::arg` violates variance non-negativity: at the quantity
`1 + 1i` with `vre = 1`, `vim = 0`, the resulting `vre` is `-1/4 < 0`
(the `(-1.0)` factor of `src/quantity.rs` line 731 negates the
contribution instead of squaring the partial derivative). -/
theorem c2_arg_negative_variance :
    (Quantity.arg ⟨1, 1, 1, 0, SIUnit.unitless⟩).vre = -(1 / 4) ∧
    (Quantity.arg ⟨1, 1, 1, 0, SIUnit.unitless⟩).vre < 0 := by
  constructor <;> simp [Quantity.arg, squared] <;> norm_num

/-- C6: at `z = 0 + (π/2)i` with `vre = 0`, `vim = 1`, the code's
`Quantity::exp` produces output `vre = 0`, while the claimed first-order
propagation rule gives `1`: line 667 of `src/quantity.rs` multiplies `vim`
by `(e^a cos b)^2` where the rule requires `(e^a sin b)^2`. -/
theorem c6_exp_vre_bug :
    (Quantity.exp ⟨0, Real.pi / 2, 0, 1, SIUnit.unitless⟩).vre = 0 ∧
    exp_vre_spec ⟨0, Real.pi / 2, 0, 1, SIUnit.unitless⟩ = 1 := by
  constructor <;>
    simp [Quantity.exp, exp_vre_spec, squared, Real.cos_pi_div_two, Real.sin_pi_div_two,
      Real.exp_zero]

/-- C1: the unit invariant as the code implements it.  With `a.unit ≠ b.unit`:
`+`, `-`, `==` fail with the unit-mismatch error; the ordering comparisons
always fail — with the unit-mismatch error when both operands are real, and
with the not-real error otherwise (the realness check of
`eval_real_binary_operator` runs before the unit check); `*` and `/` always
succeed and their result units are the componentwise sum (respectively
difference) of the seven SI exponents. -/
theorem c1_unit_invariant (a b : Quantity) (h : a.unit ≠ b.unit) :
    addQ a b = .error (.unitMismatch "+") ∧
    subQ a b = .error (.unitMismatch "-") ∧
    eqQ a b = .error (.unitMismatch "==") ∧
    (a.is_real ∧ b.is_real →
      gtQ a b = .error (.unitMismatch ">") ∧ geQ a b = .error (.unitMismatch ">=") ∧
      ltQ a b = .error (.unitMismatch "<") ∧ leQ a b = .error (.unitMismatch "<=")) ∧
    (¬(a.is_real ∧ b.is_real) →
      gtQ a b = .error (.notReal ">") ∧ geQ a b = .error (.notReal ">=") ∧
      ltQ a b = .error (.notReal "<") ∧ leQ a b = .error (.notReal "<=")) ∧
    mulQ a b = .ok (a.mul b) ∧ divQ a b = .ok (a.div b) ∧
    (a.mul b).unit = SIUnit.mul a.unit b.unit ∧
    (a.div b).unit = SIUnit.div a.unit b.unit ∧
    SIUnit.mul a.unit b.unit =
      ⟨a.unit.mole + b.unit.mole, a.unit.metre + b.unit.metre,
       a.unit.second + b.unit.second, a.unit.kilogram + b.unit.kilogram,
       a.unit.kelvin + b.unit.kelvin, a.unit.ampere + b.unit.ampere,
       a.unit.candela + b.unit.candela⟩ ∧
    SIUnit.div a.unit b.unit =
      ⟨a.unit.mole - b.unit.mole, a.unit.metre - b.unit.metre,
       a.unit.second - b.unit.second, a.unit.kilogram - b.unit.kilogram,
       a.unit.kelvin - b.unit.kelvin, a.unit.ampere - b.unit.ampere,
       a.unit.candela - b.unit.candela⟩ := by
  refine ⟨?_, ?_, ?_, ?_, ?_, rfl, rfl, rfl, rfl, rfl, rfl⟩
  · simp [addQ, h]
  · simp [subQ, h]
  · simp [eqQ, h]
  · rintro ⟨ha, hb⟩
    refine ⟨?_, ?_, ?_, ?_⟩ <;> simp [gtQ, geQ, ltQ, leQ, ha, hb, h]
  · intro hab
    rcases Classical.em a.is_real with ha | ha
    · rcases Classical.em b.is_real with hb | hb
      · exact absurd ⟨ha, hb⟩ hab
      · refine ⟨?_, ?_, ?_, ?_⟩ <;> simp [gtQ, geQ, ltQ, leQ, ha, hb]
    · refine ⟨?_, ?_, ?_, ?_⟩ <;> simp [gtQ, geQ, ltQ, leQ, ha]

/-- C1 witness: metre against second at concrete quantities. -/
theorem c1_unit_invariant_witness :
    (⟨1, 0, 0, 0, uMetre⟩ : Quantity).unit ≠ (⟨1, 0, 0, 0, uSecond⟩ : Quantity).unit ∧
    addQ ⟨1, 0, 0, 0, uMetre⟩ ⟨1, 0, 0, 0, uSecond⟩ = .error (.unitMismatch "+") :=
  ⟨by decide, (c1_unit_invariant ⟨1, 0, 0, 0, uMetre⟩ ⟨1, 0, 0, 0, uSecond⟩ (by decide)).1⟩

/-- C1 counterexample: for the imaginary quantity `1i` in metres against `1`
in seconds — units differ — the `>` comparison fails with the not-real
error, not with the unit-mismatch error the claim requires. -/
theorem c1_counterexample :
    (⟨0, 1, 0, 0, uMetre⟩ : Quantity).unit ≠ (⟨1, 0, 0, 0, uSecond⟩ : Quantity).unit ∧
    gtQ ⟨0, 1, 0, 0, uMetre⟩ ⟨1, 0, 0, 0, uSecond⟩ = .error (.notReal ">") ∧
    gtQ ⟨0, 1, 0, 0, uMetre⟩ ⟨1, 0, 0, 0, uSecond⟩ ≠ .error (.unitMismatch ">") := by
  refine ⟨by decide, ?_, ?_⟩ <;> simp [gtQ, Quantity.is_real, uMetre, uSecond]

/-- C5: for real `x` and real `y` of equal units, `sigma(x pm y)` equals the
value of `|y|` — that is, `|y|` with its variance stripped: `pm` stores the
squares of `y`'s parts as the variances and `sigma` takes their square
roots. -/
theorem c5_pm_sigma (a b : Quantity) (ha1 : a.im = 0) (ha2 : a.vim = 0)
    (hb1 : b.im = 0) (hb2 : b.vim = 0) (hu : a.unit = b.unit) :
    (pmQ a b).map Quantity.sigma = .ok b.abs.value := by
  simp only [pmQ, hu, ne_eq, not_true_eq_false, if_false, ite_not, if_pos rfl]
  simp only [Except.map, Quantity.sigma, Quantity.abs, Quantity.value, hb1]
  norm_num

/-- C5 witness: `x = 1`, `y = 3`, both unitless and real. -/
theorem c5_pm_sigma_witness :
    (⟨1, 0, 0, 0, SIUnit.unitless⟩ : Quantity).im = 0 ∧
    (⟨1, 0, 0, 0, SIUnit.unitless⟩ : Quantity).vim = 0 ∧
    (⟨3, 0, 0, 0, SIUnit.unitless⟩ : Quantity).im = 0 ∧
    (⟨3, 0, 0, 0, SIUnit.unitless⟩ : Quantity).vim = 0 ∧
    (⟨1, 0, 0, 0, SIUnit.unitless⟩ : Quantity).unit =
      (⟨3, 0, 0, 0, SIUnit.unitless⟩ : Quantity).unit ∧
    (pmQ ⟨1, 0, 0, 0, SIUnit.unitless⟩ ⟨3, 0, 0, 0, SIUnit.unitless⟩).map Quantity.sigma =
      .ok (Quantity.abs ⟨3, 0, 0, 0, SIUnit.unitless⟩).value :=
  ⟨rfl, rfl, rfl, rfl, rfl,
   c5_pm_sigma ⟨1, 0, 0, 0, SIUnit.unitless⟩ ⟨3, 0, 0, 0, SIUnit.unitless⟩ rfl rfl rfl rfl rfl⟩

/-- C5 counterexample: `sigma(x pm y)` is not `|y|` itself.  For complex
`y = 3 + 4i`, `sigma(x pm y) = 3 + 4i` componentwise while `|y| = 5`; and
for real `y = 3` carrying variance `1`, `sigma(x pm y)` has variance `0`
while `|y|` keeps variance `1`. -/
theorem c5_counterexample :
    (pmQ ⟨0, 0, 0, 0, SIUnit.unitless⟩ ⟨3, 4, 0, 0, SIUnit.unitless⟩).map Quantity.sigma =
      .ok ⟨3, 4, 0, 0, SIUnit.unitless⟩ ∧
    Quantity.abs ⟨3, 4, 0, 0, SIUnit.unitless⟩ = ⟨5, 0, 0, 0, SIUnit.unitless⟩ ∧
    (⟨3, 4, 0, 0, SIUnit.unitless⟩ : Quantity) ≠ ⟨5, 0, 0, 0, SIUnit.unitless⟩ ∧
    (pmQ ⟨0, 0, 0, 0, SIUnit.unitless⟩ ⟨3, 0, 1, 0, SIUnit.unitless⟩).map Quantity.sigma =
      .ok ⟨3, 0, 0, 0, SIUnit.unitless⟩ ∧
    Quantity.abs ⟨3, 0, 1, 0, SIUnit.unitless⟩ = ⟨3, 0, 1, 0, SIUnit.unitless⟩ ∧
    (⟨3, 0, 0, 0, SIUnit.unitless⟩ : Quantity) ≠ ⟨3, 0, 1, 0, SIUnit.unitless⟩ := by
  have h9 : Real.sqrt 9 = 3 := by
    rw [show (9 : ℝ) = 3 ^ 2 by norm_num]; exact Real.sqrt_sq (by norm_num)
  have h16 : Real.sqrt 16 = 4 := by
    rw [show (16 : ℝ) = 4 ^ 2 by norm_num]; exact Real.sqrt_sq (by norm_num)
  have h25 : Real.sqrt 25 = 5 := by
    rw [show (25 : ℝ) = 5 ^ 2 by norm_num]; exact Real.sqrt_sq (by norm_num)
  refine ⟨?_, ?_, ?_, ?_, ?_, ?_⟩
  · norm_num [pmQ, Except.map, Quantity.sigma, h9, h16]
  · norm_num [Quantity.abs, h25]
  · norm_num [Quantity.mk.injEq]
  · norm_num [pmQ, Except.map, Quantity.sigma, h9]
  · norm_num [Quantity.abs, h9]
  · norm_num [Quantity.mk.injEq]

/-- C3: `"2 + 3 * 4"` evaluates to `14`; `"2 ^ 3 ^ 2"` is folded by the
single left-to-right pass into the left-nested shape `((2 ^ 3) ^ 2)` — not a
right-heavy shape — and its evaluation fails because the `^` operator's
evaluation is unimplemented (`todo!()` at `src/ast/eval.rs` line 298). -/
theorem c3_precedence :
    runProgram 999 "2 + 3 * 4" = .ok (.number ⟨14, 0, 0, 0, SIUnit.unitless⟩) ∧
    lexF 999 "2 ^ 3 ^ 2".toList =
      .ok [.number "2" "", .operator "^", .number "3" "", .operator "^", .number "2" ""] ∧
    astF 999 [Lexem.number "2" "", .operator "^", .number "3" "", .operator "^",
      .number "2" ""] =
      .ok (.mk (.operator "^")
        [.mk (.operator "^")
           [.mk (.number (numVal 2 0 0) "") [] true,
            .mk (.number (numVal 3 0 0) "") [] true] true,
         .mk (.number (numVal 2 0 0) "") [] true] true) ∧
    runProgram 999 "2 ^ 3 ^ 2" = .error (.unimplemented "^") := by
  have hlex : lexF 999 "2 + 3 * 4".toList =
      .ok [.number "2" "", .operator "+", .number "3" "", .operator "*", .number "4" ""] := by
    rfl
  have hast : astF 999 [Lexem.number "2" "", .operator "+", .number "3" "", .operator "*",
      .number "4" ""] =
      .ok (.mk (.operator "+")
        [.mk (.number (numVal 2 0 0) "") [] true,
         .mk (.operator "*")
           [.mk (.number (numVal 3 0 0) "") [] true,
            .mk (.number (numVal 4 0 0) "") [] true] true] true) := by rfl
  have hlex2 : lexF 999 "2 ^ 3 ^ 2".toList =
      .ok [.number "2" "", .operator "^", .number "3" "", .operator "^", .number "2" ""] := by
    rfl
  have hast2 : astF 999 [Lexem.number "2" "", .operator "^", .number "3" "", .operator "^",
      .number "2" ""] =
      .ok (.mk (.operator "^")
        [.mk (.operator "^")
           [.mk (.number (numVal 2 0 0) "") [] true,
            .mk (.number (numVal 3 0 0) "") [] true] true,
         .mk (.number (numVal 2 0 0) "") [] true] true) := by rfl
  refine ⟨?_, hlex2, hast2, ?_⟩
  · rw [runProgram, hlex]
    simp only [hast]
    simp +decide [evalF, evalBin, addQ, mulQ, Quantity.add, Quantity.mul, ATree.node,
      ATree.children, numVal, SIUnit.mul, SIUnit.unitless, Quantity.eq_f64]
    norm_num
  · rw [runProgram, hlex2]
    simp only [hast2]
    simp +decide [evalF, ATree.node, ATree.children]

/-- C3 counterexample: `"2 ^ 3 ^ 2"` does not evaluate to the number `512`;
its evaluation is the unimplemented-operator error. -/
theorem c3_counterexample :
    runProgram 999 "2 ^ 3 ^ 2" = .error (.unimplemented "^") ∧
    runProgram 999 "2 ^ 3 ^ 2" ≠ .ok (.number ⟨512, 0, 0, 0, SIUnit.unitless⟩) := by
  have hlex2 : lexF 999 "2 ^ 3 ^ 2".toList =
      .ok [.number "2" "", .operator "^", .number "3" "", .operator "^", .number "2" ""] := by
    rfl
  have hast2 : astF 999 [Lexem.number "2" "", .operator "^", .number "3" "", .operator "^",
      .number "2" ""] =
      .ok (.mk (.operator "^")
        [.mk (.operator "^")
           [.mk (.number (numVal 2 0 0) "") [] true,
            .mk (.number (numVal 3 0 0) "") [] true] true,
         .mk (.number (numVal 2 0 0) "") [] true] true) := by rfl
  have h : runProgram 999 "2 ^ 3 ^ 2" = .error (.unimplemented "^") := by
    rw [runProgram, hlex2]
    simp only [hast2]
    simp +decide [evalF, ATree.node, ATree.children]
  exact ⟨h, by rw [h]; simp⟩

set_option maxRecDepth 40000 in
set_option maxHeartbeats 4000000 in
/-- C4: the source `"{x = 0; while x < 3 { x = x + 1 }}"` evaluates to a
1-wide, 3-tall column `Matrix` whose entries are all `Void`: the `while`
loop collects each body result, and the body block ends in an assignment,
which evaluates to `Void` — the loop still runs three times, leaving
`x = 3` in the environment. -/
theorem c4_while_collects_void :
    runProgram 99 "{x = 0; while x < 3 { x = x + 1 }}" =
      .ok (.matrix 1 3 [.void, .void, .void]) ∧
    (lexF 99 "{x = 0; while x < 3 { x = x + 1 }}".toList).bind (fun toks =>
      (astF 99 toks).bind (fun t =>
        (evalF 99 t []).map (fun p => lookupVar p.2 "x"))) =
      .ok (some (.number ⟨3, 0, 0, 0, SIUnit.unitless⟩)) := by
  have hlex : lexF 99 "{x = 0; while x < 3 { x = x + 1 }}".toList =
      .ok [.leftBracket, .identifier "x", .operator "=", .number "0" "", .semiColon,
        .operator "while", .identifier "x", .operator "<", .number "3" "",
        .leftBracket, .identifier "x", .operator "=", .identifier "x",
        .operator "+", .number "1" "", .rightBracket, .rightBracket] := by rfl
  have hast : astF 99 [Lexem.leftBracket, .identifier "x", .operator "=", .number "0" "",
      .semiColon, .operator "while", .identifier "x", .operator "<", .number "3" "",
      .leftBracket, .identifier "x", .operator "=", .identifier "x",
      .operator "+", .number "1" "", .rightBracket, .rightBracket] =
      .ok (.mk .block
        [.mk (.operator "=")
           [.mk (.var "x") [] true, .mk (.number (numVal 0 0 0) "") [] true] true,
         .mk (.operator "while")
           [.mk (.operator "<")
              [.mk (.var "x") [] true, .mk (.number (numVal 3 0 0) "") [] true] true,
            .mk .block
              [.mk (.operator "=")
                 [.mk (.var "x") [] true,
                  .mk (.operator "+")
                    [.mk (.var "x") [] true,
                     .mk (.number (numVal 1 0 0) "") [] true] true] true] true] true] true) := by
    rfl
  constructor
  · rw [runProgram, hlex]
    simp only [hast]
    simp +decide [evalF, evalUn, evalBin, evalBinReal, evalWhile, evalList, ltQ, addQ,
      Quantity.add, Quantity.of_f64, Quantity.eq_f64, Quantity.is_real, SIUnit.is_unitless,
      SIUnit.unitless, lookupVar, insertVar, ATree.node, ATree.children, numVal]
    norm_num
  · rw [hlex]
    simp only [Except.bind, hast]
    simp +decide [evalF, evalUn, evalBin, evalBinReal, evalWhile, evalList, ltQ, addQ,
      Quantity.add, Quantity.of_f64, Quantity.eq_f64, Quantity.is_real, SIUnit.is_unitless,
      SIUnit.unitless, lookupVar, insertVar, ATree.node, ATree.children, numVal, Except.map]
    norm_num
    simp +decide [lookupVar]

set_option maxRecDepth 40000 in
set_option maxHeartbeats 4000000 in
/-- C4 counterexample: the collected while-loop results are `Void`s, not the
numbers `1, 2, 3`. -/
theorem c4_counterexample :
    runProgram 99 "{x = 0; while x < 3 { x = x + 1 }}" =
      .ok (.matrix 1 3 [.void, .void, .void]) ∧
    runProgram 99 "{x = 0; while x < 3 { x = x + 1 }}" ≠
      .ok (.matrix 1 3 [.number ⟨1, 0, 0, 0, SIUnit.unitless⟩,
        .number ⟨2, 0, 0, 0, SIUnit.unitless⟩, .number ⟨3, 0, 0, 0, SIUnit.unitless⟩]) := by
  have hlex : lexF 99 "{x = 0; while x < 3 { x = x + 1 }}".toList =
      .ok [.leftBracket, .identifier "x", .operator "=", .number "0" "", .semiColon,
        .operator "while", .identifier "x", .operator "<", .number "3" "",
        .leftBracket, .identifier "x", .operator "=", .identifier "x",
        .operator "+", .number "1" "", .rightBracket, .rightBracket] := by rfl
  have hast : astF 99 [Lexem.leftBracket, .identifier "x", .operator "=", .number "0" "",
      .semiColon, .operator "while", .identifier "x", .operator "<", .number "3" "",
      .leftBracket, .identifier "x", .operator "=", .identifier "x",
      .operator "+", .number "1" "", .rightBracket, .rightBracket] =
      .ok (.mk .block
        [.mk (.operator "=")
           [.mk (.var "x") [] true, .mk (.number (numVal 0 0 0) "") [] true] true,
         .mk (.operator "while")
           [.mk (.operator "<")
              [.mk (.var "x") [] true, .mk (.number (numVal 3 0 0) "") [] true] true,
            .mk .block
              [.mk (.operator "=")
                 [.mk (.var "x") [] true,
                  .mk (.operator "+")
                    [.mk (.var "x") [] true,
                     .mk (.number (numVal 1 0 0) "") [] true] true] true] true] true] true) := by
    rfl
  have h : runProgram 99 "{x = 0; while x < 3 { x = x + 1 }}" =
      .ok (.matrix 1 3 [.void, .void, .void]) := by
    rw [runProgram, hlex]
    simp only [hast]
    simp +decide [evalF, evalUn, evalBin, evalBinReal, evalWhile, evalList, ltQ, addQ,
      Quantity.add, Quantity.of_f64, Quantity.eq_f64, Quantity.is_real, SIUnit.is_unitless,
      SIUnit.unitless, lookupVar, insertVar, ATree.node, ATree.children, numVal]
    norm_num
  exact ⟨h, by rw [h]; simp⟩

set_option maxRecDepth 40000 in
set_option maxHeartbeats 4000000 in
/-- C7: a matrix literal followed immediately by a bracketed index list does
not parse as indexing — `"[1,2;3,4][2,1]"` is two juxtaposed matrix literals
and the level fails to reduce to one node — while indexing through an
identifier works: with `m` bound to `[1,2;3,4]`, the source
`"{m = [1,2;3,4]; m[2,1]}"` evaluates to the number `3` (row 2, column 1,
1-based). -/
theorem c7_matrix_indexing :
    runProgram 99 "[1,2;3,4][2,1]" =
      .error (.parseErr "the parsing finished with more than one node") ∧
    runProgram 99 "{m = [1,2;3,4]; m[2,1]}" = .ok (.number ⟨3, 0, 0, 0, SIUnit.unitless⟩) := by
  have herr : runProgram 99 "[1,2;3,4][2,1]" =
      .error (.parseErr "the parsing finished with more than one node") := by rfl
  have hlex : lexF 99 "{m = [1,2;3,4]; m[2,1]}".toList =
      .ok [.leftBracket, .identifier "m", .operator "=",
        .leftSqBracket, .number "1" "", .comma, .number "2" "", .semiColon,
        .number "3" "", .comma, .number "4" "", .rightSqBracket, .semiColon,
        .identifier "m", .leftSqBracket, .number "2" "", .comma, .number "1" "",
        .rightSqBracket, .rightBracket] := by rfl
  have hast : astF 99 [Lexem.leftBracket, .identifier "m", .operator "=",
      .leftSqBracket, .number "1" "", .comma, .number "2" "", .semiColon,
      .number "3" "", .comma, .number "4" "", .rightSqBracket, .semiColon,
      .identifier "m", .leftSqBracket, .number "2" "", .comma, .number "1" "",
      .rightSqBracket, .rightBracket] =
      .ok (.mk .block
        [.mk (.operator "=")
           [.mk (.var "m") [] true,
            .mk (.matrixBlock 2 2)
              [.mk (.number (numVal 1 0 0) "") [] true,
               .mk (.number (numVal 2 0 0) "") [] true,
               .mk (.number (numVal 3 0 0) "") [] true,
               .mk (.number (numVal 4 0 0) "") [] true] true] true,
         .mk (.matrixIndexing "m")
           [.mk (.number (numVal 2 0 0) "") [] true,
            .mk (.number (numVal 1 0 0) "") [] true] true] true) := by rfl
  refine ⟨herr, ?_⟩
  rw [runProgram, hlex]
  simp only [hast]
  simp +decide [evalF, evalList, toIndexInt, lookupVar, insertVar, ATree.node,
    ATree.children, numVal, Int.floor_ofNat]

/-- C7 counterexample: `"[1,2;3,4][2,1]"` fails with a parse error, so it
does not evaluate to the number `3`. -/
theorem c7_counterexample :
    runProgram 99 "[1,2;3,4][2,1]" =
      .error (.parseErr "the parsing finished with more than one node") ∧
    runProgram 99 "[1,2;3,4][2,1]" ≠ .ok (.number ⟨3, 0, 0, 0, SIUnit.unitless⟩) := by
  have herr : runProgram 99 "[1,2;3,4][2,1]" =
      .error (.parseErr "the parsing finished with more than one node") := by rfl
  exact ⟨herr, by rw [herr]; simp⟩

set_option maxRecDepth 40000 in
set_option maxHeartbeats 4000000 in
/-- C8: the two-index form of matrix indexing has no bounds check: with `m`
bound to the 2×2 matrix `[1,2;3,4]`, the out-of-bounds access `m[1,3]`
(column 3 of a 2-column matrix) does not fail — it silently returns the cell
`3` (the linear offset `0*2 + 2` wraps into row 2, column 1). -/
theorem c8_out_of_bounds_silent :
    runProgram 99 "{m = [1,2;3,4]; m[1,3]}" = .ok (.number ⟨3, 0, 0, 0, SIUnit.unitless⟩) := by
  have hlex : lexF 99 "{m = [1,2;3,4]; m[1,3]}".toList =
      .ok [.leftBracket, .identifier "m", .operator "=",
        .leftSqBracket, .number "1" "", .comma, .number "2" "", .semiColon,
        .number "3" "", .comma, .number "4" "", .rightSqBracket, .semiColon,
        .identifier "m", .leftSqBracket, .number "1" "", .comma, .number "3" "",
        .rightSqBracket, .rightBracket] := by rfl
  have hast : astF 99 [Lexem.leftBracket, .identifier "m", .operator "=",
      .leftSqBracket, .number "1" "", .comma, .number "2" "", .semiColon,
      .number "3" "", .comma, .number "4" "", .rightSqBracket, .semiColon,
      .identifier "m", .leftSqBracket, .number "1" "", .comma, .number "3" "",
      .rightSqBracket, .rightBracket] =
      .ok (.mk .block
        [.mk (.operator "=")
           [.mk (.var "m") [] true,
            .mk (.matrixBlock 2 2)
              [.mk (.number (numVal 1 0 0) "") [] true,
               .mk (.number (numVal 2 0 0) "") [] true,
               .mk (.number (numVal 3 0 0) "") [] true,
               .mk (.number (numVal 4 0 0) "") [] true] true] true,
         .mk (.matrixIndexing "m")
           [.mk (.number (numVal 1 0 0) "") [] true,
            .mk (.number (numVal 3 0 0) "") [] true] true] true) := by rfl
  rw [runProgram, hlex]
  simp only [hast]
  simp +decide [evalF, evalList, toIndexInt, lookupVar, insertVar, ATree.node,
    ATree.children, numVal, Int.floor_ofNat]

set_option maxRecDepth 40000 in
set_option maxHeartbeats 4000000 in
/-- C9: `"2-(2 * !-3)"` evaluates to the number `2`: the first minus is
parsed as binary subtraction and `!-3` as the unary bang of the unary minus
of `3` (the parse shape the claim describes holds), but `!(-3) = 0`, so the
program computes `2 - (2 * 0) = 2`. -/
theorem c9_unary_parse :
    runProgram 99 "2-(2 * !-3)" = .ok (.number ⟨2, 0, 0, 0, SIUnit.unitless⟩) ∧
    astF 99 [Lexem.number "2" "", .operator "-", .leftPar, .number "2" "",
      .operator "*", .operator "!", .operator "-", .number "3" "", .rightPar] =
      .ok (.mk (.operator "-")
        [.mk (.number (numVal 2 0 0) "") [] true,
         .mk (.operator "*")
           [.mk (.number (numVal 2 0 0) "") [] true,
            .mk (.operator "!")
              [.mk (.operator "-") [.mk (.number (numVal 3 0 0) "") [] true] true] true] true]
        true) := by
  have hlex : lexF 99 "2-(2 * !-3)".toList =
      .ok [.number "2" "", .operator "-", .leftPar, .number "2" "", .operator "*",
        .operator "!", .operator "-", .number "3" "", .rightPar] := by rfl
  have hast : astF 99 [Lexem.number "2" "", .operator "-", .leftPar, .number "2" "",
      .operator "*", .operator "!", .operator "-", .number "3" "", .rightPar] =
      .ok (.mk (.operator "-")
        [.mk (.number (numVal 2 0 0) "") [] true,
         .mk (.operator "*")
           [.mk (.number (numVal 2 0 0) "") [] true,
            .mk (.operator "!")
              [.mk (.operator "-") [.mk (.number (numVal 3 0 0) "") [] true] true] true] true]
        true) := by rfl
  refine ⟨?_, hast⟩
  rw [runProgram, hlex]
  simp only [hast]
  simp +decide [evalF, evalUn, evalBin, subQ, mulQ, Quantity.sub, Quantity.mul,
    Quantity.neg, Quantity.of_f64, Quantity.eq_f64, SIUnit.is_unitless, SIUnit.unitless,
    SIUnit.mul, ATree.node, ATree.children, numVal]

set_option maxRecDepth 40000 in
set_option maxHeartbeats 4000000 in
/-- C9 counterexample: `"2-(2 * !-3)"` evaluates to `2`, not `-4`. -/
theorem c9_counterexample :
    runProgram 99 "2-(2 * !-3)" = .ok (.number ⟨2, 0, 0, 0, SIUnit.unitless⟩) ∧
    runProgram 99 "2-(2 * !-3)" ≠ .ok (.number ⟨-4, 0, 0, 0, SIUnit.unitless⟩) := by
  have hlex : lexF 99 "2-(2 * !-3)".toList =
      .ok [.number "2" "", .operator "-", .leftPar, .number "2" "", .operator "*",
        .operator "!", .operator "-", .number "3" "", .rightPar] := by rfl
  have hast : astF 99 [Lexem.number "2" "", .operator "-", .leftPar, .number "2" "",
      .operator "*", .operator "!", .operator "-", .number "3" "", .rightPar] =
      .ok (.mk (.operator "-")
        [.mk (.number (numVal 2 0 0) "") [] true,
         .mk (.operator "*")
           [.mk (.number (numVal 2 0 0) "") [] true,
            .mk (.operator "!")
              [.mk (.operator "-") [.mk (.number (numVal 3 0 0) "") [] true] true] true] true]
        true) := by rfl
  have h : runProgram 99 "2-(2 * !-3)" = .ok (.number ⟨2, 0, 0, 0, SIUnit.unitless⟩) := by
    rw [runProgram, hlex]
    simp only [hast]
    simp +decide [evalF, evalUn, evalBin, subQ, mulQ, Quantity.sub, Quantity.mul,
      Quantity.neg, Quantity.of_f64, Quantity.eq_f64, SIUnit.is_unitless, SIUnit.unitless,
      SIUnit.mul, ATree.node, ATree.children, numVal]
  refine ⟨h, ?_⟩
  rw [h]
  simp only [ne_eq, Except.ok.injEq, RValue.number.injEq, Quantity.mk.injEq]
  intro hcon
  have : (2 : ℝ) = -4 := hcon.1
  norm_num at this
